import Mathlib

/-! # terraform-provider-omni: the provider handlers and the `omniapi` client wrapper

A shallow embedding of `internal/provider/*.go` and `omniapi/api.go`.

* Terraform attribute values (`types.String`, `types.Bool`, `types.List`) are
  three-state values: null, unknown, or known.
* The remote Omni system is an abstract state `σ` with one transition function
  per remote operation the wrapper uses (`Remote σ`).
* Every `OmniClient` method appends a `Call` record (method, arguments, outcome)
  to the log carried in `World σ`.
* The two unbounded `for` loops (the readiness poll and the machine lookup)
  take a fuel argument and return `none` when it runs out.
* The YAML decoder of `gopkg.in/yaml.v3` is represented by the sequence of
  outcomes of successive `Decode` calls on one input.
-/

namespace Omni

/-! ## YAML decoding as `isClusterChangingName` sees it -/

/-- The anonymous struct `T` of `isClusterChangingName`: `struct { Kind string; Name string }`. -/
structure KindName where
  Kind : String
  Name : String
deriving DecidableEq, Repr

/-- Outcome of one `d.Decode(&T)` call on the next YAML document of the input.
`doc kind name`: the document decodes without error; `kind`/`name` are the
values of its top-level `kind:`/`name:` keys, `none` when the key is absent
(or null).  `fail msg`: `Decode` returns the error `msg` (syntax or type error).
The end of the list is the end of the input, where `Decode` returns `io.EOF`. -/
inductive DecodeStep where
  | doc (kind : Option String) (name : Option String)
  | fail (msg : String)
deriving DecidableEq, Repr

/-- Decoding a YAML mapping into a Go struct (yaml.v3 `mappingStruct`): only the
fields whose keys occur in the document are assigned; the other fields of the
target keep the value they had before the call. -/
def KindName.assign (t : KindName) (kind name : Option String) : KindName :=
  { Kind := kind.getD t.Kind, Name := name.getD t.Name }

/-- One `for { err := d.Decode(&T); if err != nil { return ... }; if T.Kind == "Cluster" { break } }`
loop of `isClusterChangingName` (lines 267-276 and 278-287), run on the
remaining documents with the current content of `T`.  Returns the error, or the
content of `T` at the `break`. -/
def decodeUntilCluster : List DecodeStep → KindName → Except String KindName
  | [], _ => .error "cluster name not found : EOF"
  | .fail msg :: _, _ => .error ("cluster name not found : " ++ msg)
  | .doc kind name :: rest, t =>
    let t1 := t.assign kind name
    if t1.Kind = "Cluster" then .ok t1 else decodeUntilCluster rest t1

/-- The function `isClusterChangingName` of `cluster_resource.go` (lines 258-292) on the
decoded document streams of the two templates.  The result is Go's
`(bool, error)` pair, the error being `none` for `nil`.  The struct `T` is
declared once, starts zeroed, and is the decode target of both loops. -/
def isClusterChangingNameDocs (plan state : List DecodeStep) : Bool × Option String :=
  match decodeUntilCluster plan { Kind := "", Name := "" } with
  | .error e => (false, some e)
  | .ok t1 =>
    let planName := t1.Name
    match decodeUntilCluster state t1 with
    | .error e => (false, some e)
    | .ok t2 =>
      let stateName := t2.Name
      if planName ≠ stateName then (true, none) else (false, none)

/-- Specification side of the name check: the name of the first document of kind
`"Cluster"` in a template, an absent name counting as the empty string; `none`
when the documents run out or decoding fails before such a document. -/
def firstClusterName : List DecodeStep → Option String
  | [] => none
  | .fail _ :: _ => none
  | .doc kind name :: rest =>
    if kind = some "Cluster" then some (name.getD "") else firstClusterName rest

/-- Every document of the stream that decodes sets both `kind` and `name`. -/
def explicitFields : List DecodeStep → Bool
  | [] => true
  | .fail _ :: rest => explicitFields rest
  | .doc kind name :: rest => kind.isSome && name.isSome && explicitFields rest

/-- A template as the provider can hold it in its state: `state.Template` is written only after
the Omni template library accepted the text (`cluster_resource.go`, lines 133 and 214), and
that library rejects a document without a `kind` key and a Cluster document without a `name`
key.  Every document up to the first Cluster one has a `kind` key and that Cluster document
has a `name` key.  The empty stream (the null template an import leaves) qualifies. -/
def keyedUpToCluster : List DecodeStep → Bool
  | [] => true
  | .fail _ :: _ => true
  | .doc none _ :: _ => false
  | .doc (some kind) name :: rest =>
    if kind = "Cluster" then name.isSome else keyedUpToCluster rest

/-- The function `isClusterChangingName(planTemplate, stateTemplate string)`: `yaml` is the
document stream `yaml.NewDecoder(strings.NewReader(s))` yields for the text `s`. -/
def isClusterChangingName (yaml : String → List DecodeStep) (planTemplate stateTemplate : String) :
    Bool × Option String :=
  isClusterChangingNameDocs (yaml planTemplate) (yaml stateTemplate)

/-! ## Terraform framework values, diagnostics, requests and responses -/

/-- Framework type `types.String`. -/
inductive TfString where
  | null
  | unknown
  | value (s : String)
deriving DecidableEq, Repr

/-- Method `ValueString()`: the known value, `""` for null and unknown. -/
def TfString.ValueString : TfString → String
  | .value s => s
  | _ => ""

/-- Method `IsNull()` of `types.String`. -/
def TfString.IsNull : TfString → Bool
  | .null => true
  | _ => false

/-- Framework type `types.Bool`. -/
inductive TfBool where
  | null
  | unknown
  | value (b : Bool)
deriving DecidableEq, Repr

/-- Method `ValueBool()`: the known value, `false` for null and unknown. -/
def TfBool.ValueBool : TfBool → Bool
  | .value b => b
  | _ => false

/-- Method `IsNull()` of `types.Bool`. -/
def TfBool.IsNull : TfBool → Bool
  | .null => true
  | _ => false

/-- Framework type `types.List` with string elements. -/
inductive TfList where
  | null
  | unknown
  | value (elems : List TfString)
deriving DecidableEq, Repr

/-- Method `IsNull()` of `types.List`. -/
def TfList.IsNull : TfList → Bool
  | .null => true
  | _ => false

inductive Severity where
  | error
  | warning
deriving DecidableEq, Repr

/-- One entry of `resp.Diagnostics`; `path` is the attribute path of `AddAttributeError`. -/
structure Diagnostic where
  severity : Severity
  summary : String
  detail : String
  path : Option String
deriving DecidableEq, Repr

/-- Method `Diagnostics.HasError()`. -/
def hasError (ds : List Diagnostic) : Bool :=
  ds.any (fun d => d.severity = Severity.error)

/-- Method `Diagnostics.AddError(summary, detail)`. -/
def addError (ds : List Diagnostic) (summary detail : String) : List Diagnostic :=
  ds ++ [{ severity := .error, summary := summary, detail := detail, path := none }]

/-- Method `Diagnostics.AddAttributeError(path.Root(attr), summary, detail)`. -/
def addAttributeError (ds : List Diagnostic) (attr summary detail : String) : List Diagnostic :=
  ds ++ [{ severity := .error, summary := summary, detail := detail, path := some attr }]

/-- What `req.Plan.Get(ctx, &data)` (or `req.State.Get`, `req.Config.Get`) delivers:
the diagnostics it returns and the model it fills in. -/
structure Got (α : Type) where
  diags : List Diagnostic
  data : α
deriving Repr

/-- The response of a handler: its diagnostics, and the model passed to
`resp.State.Set(ctx, &data)` (`none` when the handler returns without calling
it).  `State.Set` itself is taken to add no diagnostic. -/
structure Response (α : Type) where
  Diagnostics : List Diagnostic
  State : Option α
deriving DecidableEq, Repr

/-- A Go `[]string`: `none` is the nil slice. -/
abbrev GoSlice := Option (List String)

/-! ## The remote system and the libraries the wrapper calls -/

structure NetworkLink where
  HardwareAddress : String
deriving DecidableEq, Repr

/-- An `omni.MachineStatus` resource: `Metadata().ID()`, its labels, and
`TypedSpec().Value.Network` (`none` is the nil pointer, otherwise its `NetworkLinks`). -/
structure MachineStatus where
  ID : String
  Labels : List (String × String)
  Network : Option (List NetworkLink)
deriving DecidableEq, Repr

/-- Result of a remote or library operation that returns `(value, error)`. -/
inductive Res (α : Type) where
  | ok (a : α)
  | err (msg : String)
deriving DecidableEq, Repr

/-- The value `template.Load` returns; `ClusterName` is the result of its method `ClusterName()`. -/
structure LoadedTemplate where
  ClusterName : Res String
deriving DecidableEq, Repr

/-- Library code outside the repository that runs locally. -/
structure Libs where
  /-- The documents `yaml.NewDecoder` yields for a text. -/
  yaml : String → List DecodeStep
  /-- Function `template.Load` of the Omni client library. -/
  templateLoad : String → Res LoadedTemplate
  /-- Method `ElementsAs(ctx, &l, true)` of `types.List` with target `[]string`. -/
  elementsAs : TfList → List Diagnostic × GoSlice

/-- The remote Omni system with state `σ`: each operation returns its result and the next state. -/
structure Remote (σ : Type) where
  /-- Library call `operations.SyncTemplate`. -/
  syncTemplate : String → σ → Option String × σ
  /-- Lookup `safe.StateGetByID[*omni.ClusterStatus]`; the value is the `Ready` flag. -/
  getClusterStatus : String → σ → Res Bool × σ
  /-- Library call `operations.DeleteCluster`. -/
  deleteCluster : String → σ → Option String × σ
  /-- Listing `safe.StateList[*omni.MachineStatus]`. -/
  listMachineStatus : σ → Res (List MachineStatus) × σ
  /-- Library call `operations.ExportTemplate`; the value is what it writes to the buffer. -/
  exportTemplate : String → σ → Res String × σ
  /-- Call `Management().WithCluster(c).Kubeconfig(ctx, WithServiceAccount(ttl, user, groups...))`. -/
  kubeconfig : String → String → List String → σ → Res String × σ
  /-- Call `Management().WithCluster(c).Talosconfig(ctx, WithRawTalosconfig(false))`. -/
  talosconfig : String → σ → Res String × σ
  /-- Call `Management().WithCluster(c).KubernetesSyncManifests`. -/
  kubernetesSyncManifests : String → σ → Option String × σ
  /-- State call `st.Teardown` on the `Links.omni.sidero.dev` resource of a machine. -/
  teardown : MachineStatus → σ → Res Bool × σ
  /-- State call `st.Destroy` on the `Links.omni.sidero.dev` resource of a machine. -/
  destroy : MachineStatus → σ → Option String × σ

/-- A completed call of an `OmniClient` method: its arguments and what it returned
(`err = none` is a nil error). -/
inductive Call where
  | GetMachines (err : Option String)
  | SyncCluster (input : String) (err : Option String)
  | SyncClusterAndWaitForReady (input : String) (err : Option String)
  | DeleteCluster (name : String) (err : Option String)
  | FindMachineByUuid (uuid : String) (found : Option MachineStatus)
  | FindMachineByHardwareAddress (mac : String) (found : Option MachineStatus)
  | GetClusterMachines (clustername : String) (machines : List MachineStatus) (err : Option String)
  | GetClusterNameFromTemplate (input : String) (name : String) (err : Option String)
  | GetKubeconfigWithoutOIDC (cluster user : String) (groups : GoSlice) (k : String) (err : Option String)
  | GetTalosconfig (cluster : String) (k : String) (err : Option String)
  | GetTemplateFromClusterName (cluster : String) (template : String) (err : Option String)
  | SyncManifests (cluster : String) (err : Option String)
  | DeleteClusterMachines (machines : List MachineStatus) (err : Option String)
deriving DecidableEq, Repr

/-- The error a logged call returned, if any (`Find...` return no error value). -/
def Call.err : Call → Option String
  | .GetMachines e => e
  | .SyncCluster _ e => e
  | .SyncClusterAndWaitForReady _ e => e
  | .DeleteCluster _ e => e
  | .FindMachineByUuid _ _ => none
  | .FindMachineByHardwareAddress _ _ => none
  | .GetClusterMachines _ _ e => e
  | .GetClusterNameFromTemplate _ _ e => e
  | .GetKubeconfigWithoutOIDC _ _ _ _ e => e
  | .GetTalosconfig _ _ e => e
  | .GetTemplateFromClusterName _ _ e => e
  | .SyncManifests _ e => e
  | .DeleteClusterMachines _ e => e

/-- The remote state together with the log of the client calls made so far. -/
structure World (σ : Type) where
  remote : σ
  calls : List Call
deriving DecidableEq, Repr

/-- A world with an empty call log. -/
def World.start {σ : Type} (s : σ) : World σ := { remote := s, calls := [] }

/-- Move to remote state `s` and record the call `c`. -/
def World.log {σ : Type} (w : World σ) (s : σ) (c : Call) : World σ :=
  { remote := s, calls := w.calls ++ [c] }

/-! ## The client wrapper `omniapi.OmniClient` (`omniapi/api.go`) -/

section Client

variable {σ : Type}

/-- Method `GetMachines` (lines 60-72). -/
def OmniClient.GetMachines (R : Remote σ) (w : World σ) :
    (List MachineStatus × Option String) × World σ :=
  match R.listMachineStatus w.remote with
  | (.err e, s) => (([], some e), w.log s (.GetMachines (some e)))
  | (.ok machines, s) => ((machines, none), w.log s (.GetMachines none))

/-- Method `SyncCluster` (lines 87-97). -/
def OmniClient.SyncCluster (R : Remote σ) (input : String) (w : World σ) :
    Option String × World σ :=
  match R.syncTemplate input w.remote with
  | (some e, s) => (some e, w.log s (.SyncCluster input (some e)))
  | (none, s) => (none, w.log s (.SyncCluster input none))

/-- The loop `for { cluster, err := safe.StateGetByID(...); if err != nil { return err };
if cluster...Ready { break } }` (lines 122-130): `none` when the fuel runs out. -/
def waitForReady (R : Remote σ) (name : String) : Nat → σ → Option (Option String × σ)
  | 0, _ => none
  | fuel + 1, s =>
    match R.getClusterStatus name s with
    | (.err e, s1) => some (some e, s1)
    | (.ok ready, s1) => if ready then some (none, s1) else waitForReady R name fuel s1

/-- Method `SyncClusterAndWaitForReady` (lines 99-133).  The buffer `buf` filled by the
`TeeReader` holds the input text once `SyncTemplate` has read it. -/
def OmniClient.SyncClusterAndWaitForReady (L : Libs) (R : Remote σ) (fuel : Nat)
    (input : String) (w : World σ) : Option (Option String × World σ) :=
  match R.syncTemplate input w.remote with
  | (some e, s) => some (some e, w.log s (.SyncClusterAndWaitForReady input (some e)))
  | (none, s) =>
    match L.templateLoad input with
    | .err e =>
      let e1 := "template.Load : " ++ e
      some (some e1, w.log s (.SyncClusterAndWaitForReady input (some e1)))
    | .ok t =>
      match t.ClusterName with
      | .err e =>
        let e1 := "t.ClusterName() : " ++ e
        some (some e1, w.log s (.SyncClusterAndWaitForReady input (some e1)))
      | .ok name =>
        match waitForReady R name fuel s with
        | none => none
        | some (e, s1) => some (e, w.log s1 (.SyncClusterAndWaitForReady input e))

/-- Method `DeleteCluster` (lines 135-146). -/
def OmniClient.DeleteCluster (R : Remote σ) (name : String) (w : World σ) :
    Option String × World σ :=
  match R.deleteCluster name w.remote with
  | (some e, s) => (some e, w.log s (.DeleteCluster name (some e)))
  | (none, s) => (none, w.log s (.DeleteCluster name none))

/-- Method `FindMachineByUuid` (lines 148-160): Go's `(machine, ok)` is an `Option`. -/
def OmniClient.FindMachineByUuid (R : Remote σ) (uuid : String) (w : World σ) :
    Option MachineStatus × World σ :=
  match OmniClient.GetMachines R w with
  | ((_, some _), w1) => (none, w1.log w1.remote (.FindMachineByUuid uuid none))
  | ((machines, none), w1) =>
    match machines.find? (fun r => decide (uuid ≠ "") && decide (uuid = r.ID)) with
    | some machine => (some machine, w1.log w1.remote (.FindMachineByUuid uuid (some machine)))
    | none => (none, w1.log w1.remote (.FindMachineByUuid uuid none))

/-- The predicate of `FindMachineByHardwareAddress` (line 169). -/
def hardwareAddressMatches (mac : String) (r : MachineStatus) : Bool :=
  decide (mac ≠ "") &&
    (match r.Network with
     | none => false
     | some links =>
       decide (links.length > 0) &&
         (match links.head? with
          | some l => decide (mac = l.HardwareAddress)
          | none => false))

/-- Method `FindMachineByHardwareAddress` (lines 162-174). -/
def OmniClient.FindMachineByHardwareAddress (R : Remote σ) (mac : String) (w : World σ) :
    Option MachineStatus × World σ :=
  match OmniClient.GetMachines R w with
  | ((_, some _), w1) => (none, w1.log w1.remote (.FindMachineByHardwareAddress mac none))
  | ((machines, none), w1) =>
    match machines.find? (hardwareAddressMatches mac) with
    | some machine =>
      (some machine, w1.log w1.remote (.FindMachineByHardwareAddress mac (some machine)))
    | none => (none, w1.log w1.remote (.FindMachineByHardwareAddress mac none))

/-- Method `GetClusterMachines` (lines 176-183): the machines labelled
`omni.sidero.dev/cluster = clustername`. -/
def OmniClient.GetClusterMachines (R : Remote σ) (clustername : String) (w : World σ) :
    (List MachineStatus × Option String) × World σ :=
  match OmniClient.GetMachines R w with
  | ((machines, some e), w1) =>
    ((machines, some e), w1.log w1.remote (.GetClusterMachines clustername machines (some e)))
  | ((machines, none), w1) =>
    let ms := machines.filter
      (fun r => decide (r.Labels.lookup "omni.sidero.dev/cluster" = some clustername))
    ((ms, none), w1.log w1.remote (.GetClusterMachines clustername ms none))

/-- Method `GetClusterNameFromTemplate` (lines 185-197). -/
def OmniClient.GetClusterNameFromTemplate (L : Libs) (r : String) (w : World σ) :
    (String × Option String) × World σ :=
  match L.templateLoad r with
  | .err e => (("", some e), w.log w.remote (.GetClusterNameFromTemplate r "" (some e)))
  | .ok t =>
    match t.ClusterName with
    | .err e => (("", some e), w.log w.remote (.GetClusterNameFromTemplate r "" (some e)))
    | .ok name => ((name, none), w.log w.remote (.GetClusterNameFromTemplate r name none))

/-- Method `GetKubeconfigWithoutOIDC` (lines 210-227). -/
def OmniClient.GetKubeconfigWithoutOIDC (R : Remote σ) (cluster user : String) (groups : GoSlice)
    (w : World σ) : (String × Option String) × World σ :=
  let user1 := if user = "" then "admin" else user
  let groups1 := match groups with
    | none => ["system:masters"]
    | some g => g
  match R.kubeconfig cluster user1 groups1 w.remote with
  | (.err e, s) => (("", some e), w.log s (.GetKubeconfigWithoutOIDC cluster user groups "" (some e)))
  | (.ok k, s) => ((k, none), w.log s (.GetKubeconfigWithoutOIDC cluster user groups k none))

/-- Method `GetTalosconfig` (lines 240-249). -/
def OmniClient.GetTalosconfig (R : Remote σ) (cluster : String) (w : World σ) :
    (String × Option String) × World σ :=
  match R.talosconfig cluster w.remote with
  | (.err e, s) => (("", some e), w.log s (.GetTalosconfig cluster "" (some e)))
  | (.ok k, s) => ((k, none), w.log s (.GetTalosconfig cluster k none))

/-- Method `GetTemplateFromClusterName` (lines 262-271). -/
def OmniClient.GetTemplateFromClusterName (R : Remote σ) (cluster : String) (w : World σ) :
    (String × Option String) × World σ :=
  match R.exportTemplate cluster w.remote with
  | (.err e, s) => (("", some e), w.log s (.GetTemplateFromClusterName cluster "" (some e)))
  | (.ok t, s) => ((t, none), w.log s (.GetTemplateFromClusterName cluster t none))

/-- Method `SyncManifests` (lines 273-294); the callback only logs and returns nil. -/
def OmniClient.SyncManifests (R : Remote σ) (cluster : String) (w : World σ) :
    Option String × World σ :=
  match R.kubernetesSyncManifests cluster w.remote with
  | (e, s) => (e, w.log s (.SyncManifests cluster e))

/-- The `machines.ForEachErr` callback run over the list (lines 300-312). -/
def teardownLinks (R : Remote σ) : List MachineStatus → σ → Option String × σ
  | [], s => (none, s)
  | r :: rest, s =>
    match R.teardown r s with
    | (.err e, s1) => (some e, s1)
    | (.ok destroyReady, s1) =>
      if destroyReady then
        match R.destroy r s1 with
        | (some e, s2) => (some e, s2)
        | (none, s2) => teardownLinks R rest s2
      else teardownLinks R rest s1

/-- Method `DeleteClusterMachines` (lines 296-318). -/
def OmniClient.DeleteClusterMachines (R : Remote σ) (machines : List MachineStatus)
    (w : World σ) : Option String × World σ :=
  match teardownLinks R machines w.remote with
  | (e, s) => (e, w.log s (.DeleteClusterMachines machines e))

end Client

/-! ## The resource `omni_cluster` (`internal/provider/cluster_resource.go`) -/

/-- The struct `OmniClusterResourceModel`. -/
structure OmniClusterResourceModel where
  Template : TfString
  TemplateComputed : TfString
  ID : TfString
  ForceManifestUpdating : TfBool
  DeleteMachineLinks : TfBool
deriving DecidableEq, Repr

/-- An update request: the planned values and the prior state. -/
structure UpdateRequest (α : Type) where
  Plan : Got α
  State : Got α

section ClusterResource

variable {σ : Type}

/-- Handler `OmniClusterResource.Create` (lines 97-134); `none` when the readiness poll
runs out of fuel. -/
def OmniClusterResource.Create (L : Libs) (R : Remote σ) (fuel : Nat)
    (req : Got OmniClusterResourceModel) (w : World σ) :
    Option (Response OmniClusterResourceModel × World σ) :=
  let diags := req.diags
  if hasError diags then some ({ Diagnostics := diags, State := none }, w) else
  let data := req.data
  match OmniClient.SyncClusterAndWaitForReady L R fuel data.Template.ValueString w with
  | none => none
  | some (some err, w1) =>
    some ({ Diagnostics := addError diags "client Error"
              ("unable to sync cluster, got error: " ++ err), State := none }, w1)
  | some (none, w1) =>
    match OmniClient.GetClusterNameFromTemplate L data.Template.ValueString w1 with
    | ((_, some err), w2) =>
      some ({ Diagnostics := addError diags "client Error"
                ("unable to get cluster name, got error: " ++ err), State := none }, w2)
    | ((name, none), w2) =>
      match OmniClient.GetTemplateFromClusterName R name w2 with
      | ((_, some err), w3) =>
        some ({ Diagnostics := addError diags "client Error"
                  ("unable to get cluster template, got error: " ++ err), State := none }, w3)
      | ((template, none), w3) =>
        let data1 := { data with TemplateComputed := .value template, ID := .value name }
        some ({ Diagnostics := diags, State := some data1 }, w3)

/-- Handler `OmniClusterResource.Read` (lines 136-156). -/
def OmniClusterResource.Read (R : Remote σ) (req : Got OmniClusterResourceModel) (w : World σ) :
    Response OmniClusterResourceModel × World σ :=
  let diags := req.diags
  if hasError diags then ({ Diagnostics := diags, State := none }, w) else
  let data := req.data
  match OmniClient.GetTemplateFromClusterName R data.ID.ValueString w with
  | ((_, some err), w1) =>
    ({ Diagnostics := addError diags "client Error"
         ("unable to get cluster template, got error: " ++ err), State := none }, w1)
  | ((template, none), w1) =>
    let data1 := { data with TemplateComputed := .value template }
    ({ Diagnostics := diags, State := some data1 }, w1)

/-- Handler `OmniClusterResource.Update` (lines 158-215). -/
def OmniClusterResource.Update (L : Libs) (R : Remote σ)
    (req : UpdateRequest OmniClusterResourceModel) (w : World σ) :
    Response OmniClusterResourceModel × World σ :=
  let diags := req.Plan.diags
  if hasError diags then ({ Diagnostics := diags, State := none }, w) else
  let data := req.Plan.data
  let diags := diags ++ req.State.diags
  if hasError diags then ({ Diagnostics := diags, State := none }, w) else
  let state := req.State.data
  match isClusterChangingName L.yaml data.Template.ValueString state.Template.ValueString with
  | (_, some _) =>
    ({ Diagnostics := addError diags "Error parsing template" "Problem with YAML parsing",
       State := none }, w)
  | (true, none) =>
    ({ Diagnostics := addError diags "Changing Cluster Name is not possible"
         "Need to destroy resource before create it again", State := none }, w)
  | (false, none) =>
    match OmniClient.SyncCluster R data.Template.ValueString w with
    | (some err, w1) =>
      ({ Diagnostics := addError diags "client Error"
           ("unable to sync cluster, got error: " ++ err), State := none }, w1)
    | (none, w1) =>
      match OmniClient.GetClusterNameFromTemplate L data.Template.ValueString w1 with
      | ((_, some err), w2) =>
        ({ Diagnostics := addError diags "client Error"
             ("unable to get cluster name, got error: " ++ err), State := none }, w2)
      | ((name, none), w2) =>
        let synced :=
          if data.ForceManifestUpdating.ValueBool then OmniClient.SyncManifests R name w2
          else (none, w2)
        match synced with
        | (some err, w3) =>
          ({ Diagnostics := addError diags "client Error"
               ("unable to force sync manifests, got error: " ++ err), State := none }, w3)
        | (none, w3) =>
          match OmniClient.GetTemplateFromClusterName R name w3 with
          | ((_, some err), w4) =>
            ({ Diagnostics := addError diags "client Error"
                 ("unable to get cluster template, got error: " ++ err), State := none }, w4)
          | ((template, none), w4) =>
            let data1 := { data with TemplateComputed := .value template, ID := .value name }
            ({ Diagnostics := diags, State := some data1 }, w4)

/-- Handler `OmniClusterResource.Delete` (lines 217-252); it never calls `resp.State.Set`. -/
def OmniClusterResource.Delete (L : Libs) (R : Remote σ) (req : Got OmniClusterResourceModel)
    (w : World σ) : Response OmniClusterResourceModel × World σ :=
  let diags := req.diags
  if hasError diags then ({ Diagnostics := diags, State := none }, w) else
  let data := req.data
  match OmniClient.GetClusterNameFromTemplate L data.Template.ValueString w with
  | ((_, some err), w1) =>
    ({ Diagnostics := addError diags "client Error"
         ("unable to get cluster name, got error: " ++ err), State := none }, w1)
  | ((name, none), w1) =>
    match OmniClient.GetClusterMachines R name w1 with
    | ((_, some err), w2) =>
      ({ Diagnostics := addError diags "client Error"
           ("unable to get machines associated to cluster " ++ name ++ ", got error: " ++ err),
         State := none }, w2)
    | ((machinesToDelete, none), w2) =>
      match OmniClient.DeleteCluster R data.ID.ValueString w2 with
      | (some err, w3) =>
        ({ Diagnostics := addError diags "client Error"
             ("unable to delete cluster, got error: " ++ err), State := none }, w3)
      | (none, w3) =>
        if data.DeleteMachineLinks.ValueBool then
          match OmniClient.DeleteClusterMachines R machinesToDelete w3 with
          | (some err, w4) =>
            ({ Diagnostics := addError diags "client Error"
                 ("unable to delete cluster machines links, got error: " ++ err),
               State := none }, w4)
          | (none, w4) => ({ Diagnostics := diags, State := none }, w4)
        else ({ Diagnostics := diags, State := none }, w3)

/-- Handler `OmniClusterResource.ImportState` (lines 254-256): `ImportStatePassthroughID` on
`path.Root("id")` sets the attribute `id` to the import identifier in a state whose
other attributes are null. -/
def OmniClusterResource.ImportState (id : String) : Response OmniClusterResourceModel :=
  { Diagnostics := [],
    State := some { Template := .null, TemplateComputed := .null, ID := .value id,
                    ForceManifestUpdating := .null, DeleteMachineLinks := .null } }

end ClusterResource

/-! ## The resource `omni_kubeconfig` (`internal/provider/kubeconfig_resource.go`) -/

/-- The struct `OmniKubeconfigResourceModel`. -/
structure OmniKubeconfigResourceModel where
  Kubeconfig : TfString
  User : TfString
  Groups : TfList
  ClusterName : TfString
  ID : TfString
deriving DecidableEq, Repr

section KubeconfigResource

variable {σ : Type}

/-- Handler `OmniKubeconfigResource.Create` (lines 96-140). -/
def OmniKubeconfigResource.Create (L : Libs) (R : Remote σ)
    (req : Got OmniKubeconfigResourceModel) (w : World σ) :
    Response OmniKubeconfigResourceModel × World σ :=
  let diags := req.diags
  if hasError diags then ({ Diagnostics := diags, State := none }, w) else
  let data := req.data
  let user := if data.User.IsNull then "admin" else data.User.ValueString
  let conv : List Diagnostic × GoSlice :=
    if data.Groups.IsNull then ([], some ["system:masters"]) else L.elementsAs data.Groups
  let diags := diags ++ conv.1
  if hasError diags then ({ Diagnostics := diags, State := none }, w) else
  let groups := conv.2
  match OmniClient.GetKubeconfigWithoutOIDC R data.ClusterName.ValueString user groups w with
  | ((k, err), w1) =>
    let diags1 := match err with
      | some e => addError diags "Error retrieving kubeconfig" ("error : " ++ e)
      | none => diags
    let data1 := { data with Kubeconfig := .value k, ID := data.ClusterName }
    ({ Diagnostics := diags1, State := some data1 }, w1)

/-- Handler `OmniKubeconfigResource.Read` (lines 142-158). -/
def OmniKubeconfigResource.Read (req : Got OmniKubeconfigResourceModel) (w : World σ) :
    Response OmniKubeconfigResourceModel × World σ :=
  let diags := req.diags
  if hasError diags then ({ Diagnostics := diags, State := none }, w) else
  let data := req.data
  ({ Diagnostics := diags, State := some data }, w)

/-- Handler `OmniKubeconfigResource.Update` (lines 160-210): `data` is read from the prior
state, `plan` from the plan. -/
def OmniKubeconfigResource.Update (L : Libs) (R : Remote σ)
    (req : UpdateRequest OmniKubeconfigResourceModel) (w : World σ) :
    Response OmniKubeconfigResourceModel × World σ :=
  let diags := req.State.diags
  if hasError diags then ({ Diagnostics := diags, State := none }, w) else
  let data := req.State.data
  let diags := diags ++ req.Plan.diags
  if hasError diags then ({ Diagnostics := diags, State := none }, w) else
  let plan := req.Plan.data
  let user := if plan.User.IsNull then "admin" else plan.User.ValueString
  let conv : List Diagnostic × GoSlice :=
    if plan.Groups.IsNull then ([], some ["system:masters"]) else L.elementsAs plan.Groups
  let diags := diags ++ conv.1
  if hasError diags then ({ Diagnostics := diags, State := none }, w) else
  let groups := conv.2
  match OmniClient.GetKubeconfigWithoutOIDC R data.ClusterName.ValueString user groups w with
  | ((k, err), w1) =>
    let diags1 := match err with
      | some e => addError diags "Error retrieving kubeconfig" ("error : " ++ e)
      | none => diags
    let data1 := { data with Kubeconfig := .value k, User := plan.User, Groups := plan.Groups,
                             ID := data.ClusterName }
    ({ Diagnostics := diags1, State := some data1 }, w1)

/-- Handler `OmniKubeconfigResource.Delete` (lines 212-224). -/
def OmniKubeconfigResource.Delete (req : Got OmniKubeconfigResourceModel) (w : World σ) :
    Response OmniKubeconfigResourceModel × World σ :=
  ({ Diagnostics := req.diags, State := none }, w)

/-- Handler `OmniKubeconfigResource.ImportState` (lines 226-228): `ImportStatePassthroughID`
on `path.Root("id")`. -/
def OmniKubeconfigResource.ImportState (id : String) : Response OmniKubeconfigResourceModel :=
  { Diagnostics := [],
    State := some { Kubeconfig := .null, User := .null, Groups := .null, ClusterName := .null,
                    ID := .value id } }

end KubeconfigResource

/-! ## The data sources `omni_talosconfig` and `omni_machine` -/

/-- The struct `OmniTalosconfigDataSourceModel`. -/
structure OmniTalosconfigDataSourceModel where
  Talosconfig : TfString
  ClusterName : TfString
  ID : TfString
deriving DecidableEq, Repr

/-- The struct `OmniMachineDataSourceModel`. -/
structure OmniMachineDataSourceModel where
  HardwareAddress : TfString
  UUID : TfString
  WaitForRegistration : TfBool
  ID : TfString
deriving DecidableEq, Repr

/-- How a handler that can hit a Go run-time panic ends. -/
inductive Outcome (α : Type) where
  | done (resp : α)
  | panic
deriving DecidableEq, Repr

section DataSources

variable {σ : Type}

/-- Handler `OmniTalosconfigDataSource.Read` (`talosconfig_data_source.go`, lines 84-109). -/
def OmniTalosconfigDataSource.Read (R : Remote σ) (req : Got OmniTalosconfigDataSourceModel)
    (w : World σ) : Response OmniTalosconfigDataSourceModel × World σ :=
  let diags := req.diags
  if hasError diags then ({ Diagnostics := diags, State := none }, w) else
  let data := req.data
  match OmniClient.GetTalosconfig R data.ClusterName.ValueString w with
  | ((k, err), w1) =>
    let diags1 := match err with
      | some e => addError diags "Error retrieving talosconfig" ("error : " ++ e)
      | none => diags
    let data1 := { data with Talosconfig := .value k, ID := data.ClusterName }
    ({ Diagnostics := diags1, State := some data1 }, w1)

/-- The three assignments made when a machine is taken (`machine_data_source.go`, lines
105-107 and 115-117); `Network.NetworkLinks[0]` panics when `Network` is nil or has no link. -/
def takeMachine (data : OmniMachineDataSourceModel) (machine : MachineStatus) :
    Outcome OmniMachineDataSourceModel :=
  match machine.Network with
  | none => .panic
  | some [] => .panic
  | some (link :: _) =>
    .done { data with UUID := .value machine.ID, ID := .value machine.ID,
                      HardwareAddress := .value link.HardwareAddress }

/-- The `for` loop of `OmniMachineDataSource.Read` (lines 101-124): the model at the `break`,
or a panic; `none` when the fuel runs out. -/
def OmniMachineDataSource.lookup (R : Remote σ) :
    Nat → OmniMachineDataSourceModel → World σ →
      Option (Outcome OmniMachineDataSourceModel × World σ)
  | 0, _, _ => none
  | fuel + 1, data, w =>
    let uuid := data.UUID.ValueString
    let byUuid := if data.UUID.IsNull then (none, w) else OmniClient.FindMachineByUuid R uuid w
    match byUuid with
    | (some machine, w1) => some (takeMachine data machine, w1)
    | (none, w1) =>
      let mac := data.HardwareAddress.ValueString
      let byMac :=
        if data.HardwareAddress.IsNull then (none, w1)
        else OmniClient.FindMachineByHardwareAddress R mac w1
      match byMac with
      | (some machine, w2) => some (takeMachine data machine, w2)
      | (none, w2) =>
        if !data.WaitForRegistration.ValueBool then some (.done data, w2)
        else OmniMachineDataSource.lookup R fuel data w2

/-- Handler `OmniMachineDataSource.Read` (`machine_data_source.go`, lines 90-132). -/
def OmniMachineDataSource.Read (R : Remote σ) (fuel : Nat)
    (req : Got OmniMachineDataSourceModel) (w : World σ) :
    Option (Outcome (Response OmniMachineDataSourceModel) × World σ) :=
  let diags := req.diags
  if hasError diags then some (.done { Diagnostics := diags, State := none }, w) else
  match OmniMachineDataSource.lookup R fuel req.data w with
  | none => none
  | some (.panic, w1) => some (.panic, w1)
  | some (.done data, w1) => some (.done { Diagnostics := diags, State := some data }, w1)

/-- Handler `OmniMachineDataSource.ValidateConfig` (lines 134-148): the diagnostics of the response. -/
def OmniMachineDataSource.ValidateConfig (req : Got OmniMachineDataSourceModel) :
    List Diagnostic :=
  let diags := req.diags
  if hasError diags then diags else
  let data := req.data
  if data.UUID.IsNull && data.HardwareAddress.IsNull then
    addAttributeError diags "hardware_address" "Missing Attribute Configuration"
      "hardware_address must be set if uuid is not."
  else diags

end DataSources

/-! ## Concrete remotes and libraries used to evaluate the handlers -/

/-- Libraries for evaluation: every template is one `kind: Cluster` document whose name is the
text itself; list elements convert to their string values. -/
def demoLibs : Libs where
  yaml := fun s => [.doc (some "Cluster") (some s)]
  templateLoad := fun s => .ok { ClusterName := .ok s }
  elementsAs := fun l =>
    match l with
    | .value elems => ([], some (elems.map TfString.ValueString))
    | _ => ([], none)

/-- A remote without state on which every operation succeeds: clusters are ready at once,
no machine is registered, the export of cluster `c` is `"export:" ++ c` and its kubeconfig
is `"kubeconfig:" ++ c`. -/
def demoRemote : Remote Unit where
  syncTemplate := fun _ s => (none, s)
  getClusterStatus := fun _ s => (.ok true, s)
  deleteCluster := fun _ s => (none, s)
  listMachineStatus := fun s => (.ok [], s)
  exportTemplate := fun c s => (.ok ("export:" ++ c), s)
  kubeconfig := fun c _ _ s => (.ok ("kubeconfig:" ++ c), s)
  talosconfig := fun c s => (.ok ("talosconfig:" ++ c), s)
  kubernetesSyncManifests := fun _ s => (none, s)
  teardown := fun _ s => (.ok true, s)
  destroy := fun _ s => (none, s)

/-- A remote on which listing the machines fails with `"unavailable"`; otherwise as `demoRemote`. -/
def failingListRemote : Remote Unit :=
  { demoRemote with listMachineStatus := fun s => (.err "unavailable", s) }

/-- A planned `omni_cluster` with template `t`: the computed attributes are unknown, the
optional ones unset. -/
def clusterPlan (t : String) : OmniClusterResourceModel :=
  { Template := .value t, TemplateComputed := .unknown, ID := .unknown,
    ForceManifestUpdating := .null, DeleteMachineLinks := .null }

/-- The state `demoRemote` leaves after creating the `omni_cluster` planned by `clusterPlan t`. -/
def clusterState (t : String) : OmniClusterResourceModel :=
  { Template := .value t, TemplateComputed := .value ("export:" ++ t), ID := .value t,
    ForceManifestUpdating := .null, DeleteMachineLinks := .null }

/-- A planned `omni_kubeconfig` for cluster `c` with `user` and `groups` unset. -/
def kubeconfigPlan (c : String) : OmniKubeconfigResourceModel :=
  { Kubeconfig := .unknown, User := .null, Groups := .null, ClusterName := .value c,
    ID := .unknown }

/-- The state `demoRemote` leaves after creating the `omni_kubeconfig` planned by
`kubeconfigPlan c`. -/
def kubeconfigState (c : String) : OmniKubeconfigResourceModel :=
  { Kubeconfig := .value ("kubeconfig:" ++ c), User := .null, Groups := .null,
    ClusterName := .value c, ID := .value c }

/-- An `omni_machine` configuration that sets only `hardware_address` and
`wait_for_registration`. -/
def machineConfig (mac : String) (wait : TfBool) : OmniMachineDataSourceModel :=
  { HardwareAddress := .value mac, UUID := .null, WaitForRegistration := wait, ID := .null }

/-! ## The provider entry point (`internal/provider/provider.go`) -/

/-- Method `OmniProvider.Metadata` (lines 37-40): the pair `(resp.TypeName, resp.Version)`. -/
def OmniProvider.Metadata (version : String) : String × String := ("omni", version)

/-- Method `OmniClusterResource.Metadata` (`cluster_resource.go`, lines 42-44): `resp.TypeName`. -/
def OmniClusterResource.Metadata (ProviderTypeName : String) : String :=
  ProviderTypeName ++ "_cluster"

/-- Method `OmniKubeconfigResource.Metadata` (`kubeconfig_resource.go`, lines 41-43). -/
def OmniKubeconfigResource.Metadata (ProviderTypeName : String) : String :=
  ProviderTypeName ++ "_kubeconfig"

/-- Method `OmniMachineDataSource.Metadata` (`machine_data_source.go`, lines 39-41). -/
def OmniMachineDataSource.Metadata (ProviderTypeName : String) : String :=
  ProviderTypeName ++ "_machine"

/-- Method `OmniTalosconfigDataSource.Metadata` (`talosconfig_data_source.go`, lines 38-40). -/
def OmniTalosconfigDataSource.Metadata (ProviderTypeName : String) : String :=
  ProviderTypeName ++ "_talosconfig"

/-- Method `OmniProvider.Resources` (lines 80-85): each registered constructor
(`NewOmniClusterResource`, `NewOmniKubeconfigResource`) is represented by the `Metadata`
method of the resource it builds. -/
def OmniProvider.Resources : List (String → String) :=
  [OmniClusterResource.Metadata, OmniKubeconfigResource.Metadata]

/-- Method `OmniProvider.DataSources` (lines 87-92): `NewOmniMachineDataSource` and
`NewOmniTalosconfigDataSource`, each represented by the `Metadata` method of what it builds. -/
def OmniProvider.DataSources : List (String → String) :=
  [OmniMachineDataSource.Metadata, OmniTalosconfigDataSource.Metadata]

/-! ## Specification-side notions used by the theorems -/

/-- Whether a logged call is a `SyncManifests` call. -/
def Call.isSyncManifests : Call → Bool
  | .SyncManifests _ _ => true
  | _ => false

/-- The remote state in which poll number `k` (counting from 0) of the status of cluster `name`
is made, when polling starts in state `s` and every earlier poll was followed by another. -/
def pollState {σ : Type} (R : Remote σ) (name : String) (s : σ) : Nat → σ
  | 0 => s
  | k + 1 => (R.getClusterStatus name (pollState R name s k)).2

/-- The response to poll number `k` of the status of cluster `name`. -/
def pollResult {σ : Type} (R : Remote σ) (name : String) (s : σ) (k : Nat) : Res Bool :=
  (R.getClusterStatus name (pollState R name s k)).1

/-- A remote as `demoRemote` whose machine listing returns `machines`. -/
def listRemote (machines : List MachineStatus) : Remote Unit :=
  { demoRemote with listMachineStatus := fun s => (.ok machines, s) }

/-- A registered machine with one network link. -/
def linkedMachine (id mac : String) : MachineStatus :=
  { ID := id, Labels := [], Network := some [{ HardwareAddress := mac }] }

/-- A registered machine whose status carries no network information (`Network` is nil). -/
def bareMachine (id : String) : MachineStatus :=
  { ID := id, Labels := [], Network := none }

/-- An `omni_machine` configuration that sets only `uuid`. -/
def machineConfigByUuid (uuid : String) : OmniMachineDataSourceModel :=
  { HardwareAddress := .null, UUID := .value uuid, WaitForRegistration := .null, ID := .null }

/-- A remote as `demoRemote` on which cluster `a` reports not ready forever. -/
def neverReadyRemote : Remote Unit :=
  { demoRemote with getClusterStatus := fun _ s => (.ok false, s) }

/-- The `omni_machine` state after machine `id` with first link `mac` was taken. -/
def machineFound (id mac : String) (wait : TfBool) : OmniMachineDataSourceModel :=
  { HardwareAddress := .value mac, UUID := .value id, WaitForRegistration := wait,
    ID := .value id }

/-- A registered machine that belongs to `cluster` (label `omni.sidero.dev/cluster`). -/
def labelledMachine (id cluster : String) : MachineStatus :=
  { ID := id, Labels := [("omni.sidero.dev/cluster", cluster)], Network := none }

/-- The state of cluster `t` as `clusterState t`, with `delete_machine_links = true`. -/
def clusterStateWithLinks (t : String) : OmniClusterResourceModel :=
  { clusterState t with DeleteMachineLinks := .value true }

/-- The document streams `yaml.NewDecoder` yields for a few template texts, used to evaluate
the name check on concrete inputs; any other text is reported as a decoding failure. -/
def sampleYaml (s : String) : List DecodeStep :=
  if s = "" then []
  else if s = "kind: Cluster\nname: a\n" then [.doc (some "Cluster") (some "a")]
  else if s = "kind: ControlPlane\n---\nkind: Cluster\nname: a\n" then
    [.doc (some "ControlPlane") none, .doc (some "Cluster") (some "a")]
  else [.fail "yaml: text outside the sample table"]

/-- Every error a logged client call returned shows up in an error diagnostic whose detail
contains the error message. -/
def surfaced (calls : List Call) (diags : List Diagnostic) : Prop :=
  ∀ c ∈ calls, ∀ e, c.err = some e →
    ∃ d ∈ diags, d.severity = Severity.error ∧ ∃ pre suf, d.detail = pre ++ e ++ suf

/-! ## Theorems -/

theorem hasError_append (a b : List Diagnostic) :
    hasError (a ++ b) = (hasError a || hasError b) := by
  simp [hasError, List.any_append]

theorem mem_addError (ds : List Diagnostic) (summary detail : String) :
    { severity := Severity.error, summary := summary, detail := detail, path := none }
      ∈ addError ds summary detail := by
  simp [addError]

/-! ### What each client method appends to the call log -/

section CallLog

variable {σ : Type}

theorem GetMachines_log (R : Remote σ) (w w1 : World σ) (ms : List MachineStatus)
    (e : Option String) (h : OmniClient.GetMachines R w = ((ms, e), w1)) :
    w1.calls = w.calls ++ [.GetMachines e] := by
  unfold OmniClient.GetMachines at h
  split at h <;> simp [World.log] at h <;> obtain ⟨⟨-, rfl⟩, rfl⟩ := h <;> rfl

theorem SyncCluster_log (R : Remote σ) (input : String) (w w1 : World σ) (e : Option String)
    (h : OmniClient.SyncCluster R input w = (e, w1)) :
    w1.calls = w.calls ++ [.SyncCluster input e] := by
  unfold OmniClient.SyncCluster at h
  split at h <;> simp [World.log] at h <;> obtain ⟨rfl, rfl⟩ := h <;> rfl

theorem SyncClusterAndWaitForReady_log (L : Libs) (R : Remote σ) (fuel : Nat) (input : String)
    (w w1 : World σ) (e : Option String)
    (h : OmniClient.SyncClusterAndWaitForReady L R fuel input w = some (e, w1)) :
    w1.calls = w.calls ++ [.SyncClusterAndWaitForReady input e] := by
  unfold OmniClient.SyncClusterAndWaitForReady at h
  repeat' split at h
  all_goals simp [World.log] at h
  all_goals obtain ⟨rfl, rfl⟩ := h
  all_goals rfl

theorem DeleteCluster_log (R : Remote σ) (name : String) (w w1 : World σ) (e : Option String)
    (h : OmniClient.DeleteCluster R name w = (e, w1)) :
    w1.calls = w.calls ++ [.DeleteCluster name e] := by
  unfold OmniClient.DeleteCluster at h
  split at h <;> simp [World.log] at h <;> obtain ⟨rfl, rfl⟩ := h <;> rfl

theorem FindMachineByUuid_log (R : Remote σ) (uuid : String) (w w1 : World σ)
    (m : Option MachineStatus) (h : OmniClient.FindMachineByUuid R uuid w = (m, w1)) :
    ∃ e, w1.calls = w.calls ++ [.GetMachines e, .FindMachineByUuid uuid m] := by
  unfold OmniClient.FindMachineByUuid at h
  split at h
  · next heq =>
    have hl := GetMachines_log R _ _ _ _ heq
    simp [World.log] at h
    obtain ⟨rfl, rfl⟩ := h
    exact ⟨_, by show _ ++ _ = _; rw [hl, List.append_assoc]; rfl⟩
  · next heq =>
    have hl := GetMachines_log R _ _ _ _ heq
    split at h <;> simp [World.log] at h <;> obtain ⟨rfl, rfl⟩ := h <;> exact ⟨_, by show _ ++ _ = _; rw [hl, List.append_assoc]; rfl⟩

theorem FindMachineByHardwareAddress_log (R : Remote σ) (mac : String) (w w1 : World σ)
    (m : Option MachineStatus) (h : OmniClient.FindMachineByHardwareAddress R mac w = (m, w1)) :
    ∃ e, w1.calls = w.calls ++ [.GetMachines e, .FindMachineByHardwareAddress mac m] := by
  unfold OmniClient.FindMachineByHardwareAddress at h
  split at h
  · next heq =>
    have hl := GetMachines_log R _ _ _ _ heq
    simp [World.log] at h
    obtain ⟨rfl, rfl⟩ := h
    exact ⟨_, by show _ ++ _ = _; rw [hl, List.append_assoc]; rfl⟩
  · next heq =>
    have hl := GetMachines_log R _ _ _ _ heq
    split at h <;> simp [World.log] at h <;> obtain ⟨rfl, rfl⟩ := h <;> exact ⟨_, by show _ ++ _ = _; rw [hl, List.append_assoc]; rfl⟩

theorem GetClusterMachines_log (R : Remote σ) (name : String) (w w1 : World σ)
    (ms : List MachineStatus) (e : Option String)
    (h : OmniClient.GetClusterMachines R name w = ((ms, e), w1)) :
    w1.calls = w.calls ++ [.GetMachines e, .GetClusterMachines name ms e] := by
  unfold OmniClient.GetClusterMachines at h
  split at h
  · next heq =>
    have hl := GetMachines_log R _ _ _ _ heq
    simp [World.log] at h
    obtain ⟨⟨rfl, rfl⟩, rfl⟩ := h
    simp [hl]
  · next heq =>
    have hl := GetMachines_log R _ _ _ _ heq
    simp [World.log] at h
    obtain ⟨⟨rfl, rfl⟩, rfl⟩ := h
    simp [hl]

theorem GetClusterNameFromTemplate_log (L : Libs) (r : String) (w w1 : World σ) (name : String)
    (e : Option String) (h : OmniClient.GetClusterNameFromTemplate L r w = ((name, e), w1)) :
    w1.calls = w.calls ++ [.GetClusterNameFromTemplate r name e] ∧ w1.remote = w.remote := by
  unfold OmniClient.GetClusterNameFromTemplate at h
  repeat' split at h
  all_goals simp [World.log] at h
  all_goals obtain ⟨⟨rfl, rfl⟩, rfl⟩ := h
  all_goals exact ⟨rfl, rfl⟩

theorem GetKubeconfigWithoutOIDC_log (R : Remote σ) (cluster user : String) (groups : GoSlice)
    (w w1 : World σ) (k : String) (e : Option String)
    (h : OmniClient.GetKubeconfigWithoutOIDC R cluster user groups w = ((k, e), w1)) :
    w1.calls = w.calls ++ [.GetKubeconfigWithoutOIDC cluster user groups k e] := by
  unfold OmniClient.GetKubeconfigWithoutOIDC at h
  simp only at h
  split at h <;> simp [World.log] at h <;> obtain ⟨⟨rfl, rfl⟩, rfl⟩ := h <;> rfl

theorem GetTalosconfig_log (R : Remote σ) (cluster : String) (w w1 : World σ) (k : String)
    (e : Option String) (h : OmniClient.GetTalosconfig R cluster w = ((k, e), w1)) :
    w1.calls = w.calls ++ [.GetTalosconfig cluster k e] := by
  unfold OmniClient.GetTalosconfig at h
  split at h <;> simp [World.log] at h <;> obtain ⟨⟨rfl, rfl⟩, rfl⟩ := h <;> rfl

theorem GetTemplateFromClusterName_log (R : Remote σ) (cluster : String) (w w1 : World σ)
    (t : String) (e : Option String)
    (h : OmniClient.GetTemplateFromClusterName R cluster w = ((t, e), w1)) :
    w1.calls = w.calls ++ [.GetTemplateFromClusterName cluster t e] := by
  unfold OmniClient.GetTemplateFromClusterName at h
  split at h <;> simp [World.log] at h <;> obtain ⟨⟨rfl, rfl⟩, rfl⟩ := h <;> rfl

theorem SyncManifests_log (R : Remote σ) (cluster : String) (w w1 : World σ) (e : Option String)
    (h : OmniClient.SyncManifests R cluster w = (e, w1)) :
    w1.calls = w.calls ++ [.SyncManifests cluster e] := by
  unfold OmniClient.SyncManifests at h
  simp [World.log] at h
  obtain ⟨rfl, rfl⟩ := h
  rfl

theorem DeleteClusterMachines_log (R : Remote σ) (machines : List MachineStatus) (w w1 : World σ)
    (e : Option String) (h : OmniClient.DeleteClusterMachines R machines w = (e, w1)) :
    w1.calls = w.calls ++ [.DeleteClusterMachines machines e] := by
  unfold OmniClient.DeleteClusterMachines at h
  simp [World.log] at h
  obtain ⟨rfl, rfl⟩ := h
  rfl

end CallLog

theorem decodeUntilCluster_explicit (docs : List DecodeStep) (t : KindName) (n : String)
    (hx : explicitFields docs = true) (hn : firstClusterName docs = some n) :
    decodeUntilCluster docs t = .ok { Kind := "Cluster", Name := n } := by
  induction docs generalizing t with
  | nil => simp [firstClusterName] at hn
  | cons d rest ih =>
    cases d with
    | fail msg => simp [firstClusterName] at hn
    | doc kind name =>
      cases kind with
      | none => simp [explicitFields] at hx
      | some k =>
        cases name with
        | none => simp [explicitFields] at hx
        | some m =>
          simp [explicitFields] at hx
          by_cases hk : k = "Cluster"
          · subst hk
            simp [firstClusterName] at hn
            subst hn
            simp [decodeUntilCluster, KindName.assign]
          · simp [firstClusterName, hk] at hn
            simp [decodeUntilCluster, KindName.assign, hk]
            exact ih _ hx hn

/-- When every decoded document of both templates sets `kind` and `name` itself, the name
check compares the names of the first Cluster documents. -/
theorem isClusterChangingNameDocs_explicit (plan state : List DecodeStep) (p s : String)
    (hxp : explicitFields plan = true) (hxs : explicitFields state = true)
    (hp : firstClusterName plan = some p) (hs : firstClusterName state = some s) :
    isClusterChangingNameDocs plan state = (decide (p ≠ s), none) := by
  simp only [isClusterChangingNameDocs, decodeUntilCluster_explicit plan _ p hxp hp,
    decodeUntilCluster_explicit state _ s hxs hs]
  by_cases h : p = s <;> simp [h]

theorem decodeUntilCluster_error_msg (docs : List DecodeStep) (t : KindName) (e : String)
    (h : decodeUntilCluster docs t = .error e) :
    ∃ msg, e = "cluster name not found : " ++ msg := by
  induction docs generalizing t with
  | nil =>
    simp [decodeUntilCluster] at h
    exact ⟨"EOF", h.symm⟩
  | cons d rest ih =>
    cases d with
    | fail msg =>
      simp [decodeUntilCluster] at h
      exact ⟨msg, h.symm⟩
    | doc kind name =>
      simp only [decodeUntilCluster] at h
      split at h
      · simp at h
      · exact ih _ h

/-- The plan loop starts with a target whose kind is not "Cluster": it fails exactly when the
stream holds no Cluster document. -/
theorem decodeUntilCluster_error_iff (docs : List DecodeStep) (t : KindName)
    (ht : t.Kind ≠ "Cluster") :
    (∃ e, decodeUntilCluster docs t = .error e) ↔ firstClusterName docs = none := by
  induction docs generalizing t with
  | nil => simp [decodeUntilCluster, firstClusterName]
  | cons d rest ih =>
    cases d with
    | fail msg => simp [decodeUntilCluster, firstClusterName]
    | doc kind name =>
      cases kind with
      | none =>
        have h1 : (t.assign none name).Kind ≠ "Cluster" := by simpa [KindName.assign] using ht
        simp only [decodeUntilCluster, firstClusterName, if_neg h1]
        simpa using ih _ h1
      | some k =>
        by_cases hk : k = "Cluster"
        · subst hk
          simp [decodeUntilCluster, firstClusterName, KindName.assign]
        · have h1 : (t.assign (some k) name).Kind ≠ "Cluster" := by
            simpa [KindName.assign] using hk
          simp only [decodeUntilCluster, firstClusterName, if_neg h1]
          simpa [hk] using ih _ h1

/-- On a stream that is keyed up to its first Cluster document the loop, started with any
target, fails exactly when the stream holds no Cluster document. -/
theorem decodeUntilCluster_keyed_error_iff (docs : List DecodeStep) (t : KindName)
    (hk : keyedUpToCluster docs = true) :
    (∃ e, decodeUntilCluster docs t = .error e) ↔ firstClusterName docs = none := by
  induction docs generalizing t with
  | nil => simp [decodeUntilCluster, firstClusterName]
  | cons d rest ih =>
    cases d with
    | fail msg => simp [decodeUntilCluster, firstClusterName]
    | doc kind name =>
      cases kind with
      | none => simp [keyedUpToCluster] at hk
      | some k =>
        by_cases hc : k = "Cluster"
        · subst hc
          simp [decodeUntilCluster, firstClusterName, KindName.assign]
        · simp only [keyedUpToCluster, if_neg hc] at hk
          have h1 : (t.assign (some k) name).Kind ≠ "Cluster" := by
            simpa [KindName.assign] using hc
          simp only [decodeUntilCluster, firstClusterName, if_neg h1]
          simpa [hc] using ih _ hk

/-- On a stream that is keyed up to its first Cluster document the loop ends with the name of
that document, whatever the target held before. -/
theorem decodeUntilCluster_keyed_ok (docs : List DecodeStep) (t : KindName) (n : String)
    (hk : keyedUpToCluster docs = true) (hn : firstClusterName docs = some n) :
    decodeUntilCluster docs t = .ok { Kind := "Cluster", Name := n } := by
  induction docs generalizing t with
  | nil => simp [firstClusterName] at hn
  | cons d rest ih =>
    cases d with
    | fail msg => simp [firstClusterName] at hn
    | doc kind name =>
      cases kind with
      | none => simp [keyedUpToCluster] at hk
      | some k =>
        by_cases hc : k = "Cluster"
        · subst hc
          cases name with
          | none => simp [keyedUpToCluster] at hk
          | some m =>
            simp [firstClusterName] at hn
            subst hn
            simp [decodeUntilCluster, KindName.assign]
        · simp only [keyedUpToCluster, if_neg hc] at hk
          have h1 : (t.assign (some k) name).Kind ≠ "Cluster" := by
            simpa [KindName.assign] using hc
          simp [firstClusterName, hc] at hn
          simp only [decodeUntilCluster, if_neg h1]
          exact ih _ hk hn

/-- When plan and state are both keyed up to their first Cluster document, the name check
compares the names of those documents. -/
theorem isClusterChangingNameDocs_keyed (plan state : List DecodeStep) (p s : String)
    (hkp : keyedUpToCluster plan = true) (hks : keyedUpToCluster state = true)
    (hp : firstClusterName plan = some p) (hs : firstClusterName state = some s) :
    isClusterChangingNameDocs plan state = (decide (p ≠ s), none) := by
  simp only [isClusterChangingNameDocs, decodeUntilCluster_keyed_ok plan _ p hkp hp,
    decodeUntilCluster_keyed_ok state _ s hks hs]
  by_cases h : p = s <;> simp [h]

/-- C1: on the plan `kind: Workers, name: w` / `kind: Cluster` (no name) and the stored state
`kind: Cluster, name: w`, the first Cluster documents carry the names "" (absent) and `w`,
which differ, yet `isClusterChangingName` returns `(false, nil)`: the decode target still
holds the name `w` of the Workers document when the nameless Cluster document is decoded. -/
theorem C1_absent_plan_name_keeps_earlier_name :
    keyedUpToCluster [.doc (some "Cluster") (some "w")] = true ∧
    firstClusterName [.doc (some "Workers") (some "w"), .doc (some "Cluster") none] = some "" ∧
    firstClusterName [.doc (some "Cluster") (some "w")] = some "w" ∧
    isClusterChangingNameDocs [.doc (some "Workers") (some "w"), .doc (some "Cluster") none]
      [.doc (some "Cluster") (some "w")] = (false, none) := by
  decide

/-- C2: when the name check of `Update` returns `(true, nil)`, the response carries the error
diagnostic "Changing Cluster Name is not possible", the world is unchanged (no client call was
made, the remote state is untouched) and `resp.State.Set` is not called. -/
theorem C2_update_rejects_rename {σ : Type} (L : Libs) (R : Remote σ)
    (req : UpdateRequest OmniClusterResourceModel) (w : World σ)
    (hplan : hasError req.Plan.diags = false) (hstate : hasError req.State.diags = false)
    (hname : isClusterChangingName L.yaml req.Plan.data.Template.ValueString
      req.State.data.Template.ValueString = (true, none)) :
    ({ severity := Severity.error, summary := "Changing Cluster Name is not possible",
       detail := "Need to destroy resource before create it again", path := none } : Diagnostic)
        ∈ (OmniClusterResource.Update L R req w).1.Diagnostics ∧
    (OmniClusterResource.Update L R req w).1.State = none ∧
    (OmniClusterResource.Update L R req w).2.calls = w.calls ∧
    (OmniClusterResource.Update L R req w).2.remote = w.remote := by
  have h2 : hasError (req.Plan.diags ++ req.State.diags) = false := by
    rw [hasError_append, hplan, hstate]; rfl
  simp [OmniClusterResource.Update, hplan, h2, hname, addError]

/-- Witness for C2: the plan renames cluster `a` to `b`. -/
theorem C2_update_rejects_rename_witness :
    ({ severity := Severity.error, summary := "Changing Cluster Name is not possible",
       detail := "Need to destroy resource before create it again", path := none } : Diagnostic)
        ∈ (OmniClusterResource.Update demoLibs demoRemote
            { Plan := { diags := [], data := clusterPlan "b" },
              State := { diags := [], data := clusterState "a" } }
            (World.start ())).1.Diagnostics :=
  (C2_update_rejects_rename demoLibs demoRemote _ (World.start ()) (by decide) (by decide)
    (by decide)).1

/-- C3: for every plan template, and every state template that is keyed up to its first Cluster
document (as every stored state is), `isClusterChangingName` returns a non-nil error if and
only if the plan or the state holds no document of kind "Cluster" before its documents run
out or decoding fails; an error comes with the result `false` and starts with
"cluster name not found". -/
theorem C3_error_iff_no_cluster_document (yaml : String → List DecodeStep)
    (planTemplate stateTemplate : String)
    (hstate : keyedUpToCluster (yaml stateTemplate) = true) :
    ((isClusterChangingName yaml planTemplate stateTemplate).2 ≠ none ↔
      (firstClusterName (yaml planTemplate) = none ∨
        firstClusterName (yaml stateTemplate) = none)) ∧
    (∀ e, (isClusterChangingName yaml planTemplate stateTemplate).2 = some e →
      (isClusterChangingName yaml planTemplate stateTemplate).1 = false ∧
      ∃ msg, e = "cluster name not found : " ++ msg) := by
  have hzero : ({ Kind := "", Name := "" } : KindName).Kind ≠ "Cluster" := by decide
  cases hp : decodeUntilCluster (yaml planTemplate) { Kind := "", Name := "" } with
  | error e =>
    have hval : isClusterChangingName yaml planTemplate stateTemplate = (false, some e) := by
      simp [isClusterChangingName, isClusterChangingNameDocs, hp]
    have hnone := (decodeUntilCluster_error_iff (yaml planTemplate) _ hzero).mp ⟨e, hp⟩
    rw [hval]
    refine ⟨by simp [hnone], ?_⟩
    intro e1 he1
    simp at he1
    subst he1
    exact ⟨rfl, decodeUntilCluster_error_msg _ _ _ hp⟩
  | ok t1 =>
    have hsome : firstClusterName (yaml planTemplate) ≠ none := by
      intro hn
      obtain ⟨e, he⟩ := (decodeUntilCluster_error_iff (yaml planTemplate) _ hzero).mpr hn
      rw [hp] at he
      exact Except.noConfusion he
    cases hs : decodeUntilCluster (yaml stateTemplate) t1 with
    | error e =>
      have hval : isClusterChangingName yaml planTemplate stateTemplate = (false, some e) := by
        simp [isClusterChangingName, isClusterChangingNameDocs, hp, hs]
      have hnone :=
        (decodeUntilCluster_keyed_error_iff (yaml stateTemplate) t1 hstate).mp ⟨e, hs⟩
      rw [hval]
      refine ⟨by simp [hnone], ?_⟩
      intro e1 he1
      simp at he1
      subst he1
      exact ⟨rfl, decodeUntilCluster_error_msg _ _ _ hs⟩
    | ok t2 =>
      have hsome2 : firstClusterName (yaml stateTemplate) ≠ none := by
        intro hn
        obtain ⟨e, he⟩ :=
          (decodeUntilCluster_keyed_error_iff (yaml stateTemplate) t1 hstate).mpr hn
        rw [hs] at he
        exact Except.noConfusion he
      have hval : (isClusterChangingName yaml planTemplate stateTemplate).2 = none := by
        by_cases hne : t1.Name = t2.Name <;>
          simp [isClusterChangingName, isClusterChangingNameDocs, hp, hs, hne]
      rw [hval]
      refine ⟨by simp [hsome, hsome2], ?_⟩
      intro e1 he1
      simp at he1

/-- Witness for C3: a plan with a Cluster document against the null template an import leaves
in the state; the state holds no Cluster document, so the check returns an error. -/
theorem C3_error_iff_no_cluster_document_witness :
    (isClusterChangingName sampleYaml "kind: Cluster\nname: a\n" "").2 ≠ none :=
  (C3_error_iff_no_cluster_document sampleYaml "kind: Cluster\nname: a\n" "" (by decide)).1.mpr
    (Or.inr (by decide))

/-- What a state-writing `Create` of `omni_cluster` writes. -/
theorem create_written {σ : Type} (L : Libs) (R : Remote σ) (fuel : Nat)
    (req : Got OmniClusterResourceModel) (s : σ)
    (resp : Response OmniClusterResourceModel) (w1 : World σ) (st : OmniClusterResourceModel)
    (h : OmniClusterResource.Create L R fuel req (World.start s) = some (resp, w1))
    (hst : resp.State = some st) :
    st.Template = req.data.Template ∧
    st.ForceManifestUpdating = req.data.ForceManifestUpdating ∧
    st.DeleteMachineLinks = req.data.DeleteMachineLinks ∧
    ∃ name template,
      Call.GetClusterNameFromTemplate req.data.Template.ValueString name none ∈ w1.calls ∧
      Call.GetTemplateFromClusterName name template none ∈ w1.calls ∧
      st.ID = .value name ∧ st.TemplateComputed = .value template := by
  unfold OmniClusterResource.Create at h
  simp only at h
  split at h
  · simp at h; obtain ⟨rfl, rfl⟩ := h; simp at hst
  · split at h
    · simp at h
    · simp at h; obtain ⟨rfl, rfl⟩ := h; simp at hst
    · split at h
      · simp at h; obtain ⟨rfl, rfl⟩ := h; simp at hst
      · next name w3 hname =>
        split at h
        · simp at h; obtain ⟨rfl, rfl⟩ := h; simp at hst
        · next template w4 htemplate =>
          simp at h; obtain ⟨rfl, rfl⟩ := h
          simp at hst
          subst hst
          have h1 := (GetClusterNameFromTemplate_log L _ _ _ _ _ hname).1
          have h2 := GetTemplateFromClusterName_log R _ _ _ _ _ htemplate
          refine ⟨rfl, rfl, rfl, name, template, ?_, ?_, rfl, rfl⟩
          · simp [h2, h1]
          · simp [h2]

/-- What a state-writing `Update` of `omni_cluster` writes. -/
theorem update_written {σ : Type} (L : Libs) (R : Remote σ)
    (req : UpdateRequest OmniClusterResourceModel) (s : σ) (st : OmniClusterResourceModel)
    (hst : (OmniClusterResource.Update L R req (World.start s)).1.State = some st) :
    st.Template = req.Plan.data.Template ∧
    st.ForceManifestUpdating = req.Plan.data.ForceManifestUpdating ∧
    st.DeleteMachineLinks = req.Plan.data.DeleteMachineLinks ∧
    ∃ name template,
      Call.GetClusterNameFromTemplate req.Plan.data.Template.ValueString name none
        ∈ (OmniClusterResource.Update L R req (World.start s)).2.calls ∧
      Call.GetTemplateFromClusterName name template none
        ∈ (OmniClusterResource.Update L R req (World.start s)).2.calls ∧
      st.ID = .value name ∧ st.TemplateComputed = .value template := by
  revert hst
  unfold OmniClusterResource.Update
  simp only
  split
  · simp
  · split
    · simp
    · split
      · simp
      · simp
      · split
        · simp
        · next w1 hsync =>
          split
          · simp
          · next name w2 hname =>
            split
            · simp
            · next w3 hman =>
              split
              · simp
              · next template w4 htemplate =>
                intro hst
                simp at hst
                subst hst
                have h1 := (GetClusterNameFromTemplate_log L _ _ _ _ _ hname).1
                have h2 := GetTemplateFromClusterName_log R _ _ _ _ _ htemplate
                have h3 : ∃ l, w3.calls = w2.calls ++ l := by
                  split at hman
                  · exact ⟨_, SyncManifests_log R _ _ _ _ hman⟩
                  · simp at hman; exact ⟨[], by simp [hman]⟩
                obtain ⟨l, h3⟩ := h3
                refine ⟨rfl, rfl, rfl, name, template, ?_, ?_, rfl, rfl⟩
                · simp [h2, h3, h1]
                · simp [h2]

/-- C6: whenever `Create` or `Update` of `omni_cluster` writes a state, that state has
`template`, `force_manifest_updating` and `delete_machine_links` equal to the plan's values,
`id` equal to the name `GetClusterNameFromTemplate` returned for the planned template, and
`template_computed` equal to the template `GetTemplateFromClusterName` returned for that name. -/
theorem C6_cluster_create_update_state :
    (∀ (σ : Type) (L : Libs) (R : Remote σ) (fuel : Nat) (req : Got OmniClusterResourceModel)
      (s : σ) (resp : Response OmniClusterResourceModel) (w1 : World σ)
      (st : OmniClusterResourceModel),
      OmniClusterResource.Create L R fuel req (World.start s) = some (resp, w1) →
      resp.State = some st →
      st.Template = req.data.Template ∧
      st.ForceManifestUpdating = req.data.ForceManifestUpdating ∧
      st.DeleteMachineLinks = req.data.DeleteMachineLinks ∧
      ∃ name template,
        Call.GetClusterNameFromTemplate req.data.Template.ValueString name none ∈ w1.calls ∧
        Call.GetTemplateFromClusterName name template none ∈ w1.calls ∧
        st.ID = .value name ∧ st.TemplateComputed = .value template) ∧
    (∀ (σ : Type) (L : Libs) (R : Remote σ) (req : UpdateRequest OmniClusterResourceModel)
      (s : σ) (st : OmniClusterResourceModel),
      (OmniClusterResource.Update L R req (World.start s)).1.State = some st →
      st.Template = req.Plan.data.Template ∧
      st.ForceManifestUpdating = req.Plan.data.ForceManifestUpdating ∧
      st.DeleteMachineLinks = req.Plan.data.DeleteMachineLinks ∧
      ∃ name template,
        Call.GetClusterNameFromTemplate req.Plan.data.Template.ValueString name none
          ∈ (OmniClusterResource.Update L R req (World.start s)).2.calls ∧
        Call.GetTemplateFromClusterName name template none
          ∈ (OmniClusterResource.Update L R req (World.start s)).2.calls ∧
        st.ID = .value name ∧ st.TemplateComputed = .value template) :=
  ⟨fun _ L R fuel req s resp w1 st h hst => create_written L R fuel req s resp w1 st h hst,
   fun _ L R req s st hst => update_written L R req s st hst⟩

/-- Witness for C6: creating the cluster planned by `clusterPlan "a"` on `demoRemote`, and
updating it with the same template. -/
theorem C6_cluster_create_update_state_witness :
    (OmniClusterResource.Create demoLibs demoRemote 1 { diags := [], data := clusterPlan "a" }
        (World.start ()) =
      some ({ Diagnostics := [], State := some (clusterState "a") },
        { remote := (), calls := [.SyncClusterAndWaitForReady "a" none,
            .GetClusterNameFromTemplate "a" "a" none,
            .GetTemplateFromClusterName "a" "export:a" none] }) ∧
      (clusterState "a").Template = (clusterPlan "a").Template) ∧
    ((OmniClusterResource.Update demoLibs demoRemote
        { Plan := { diags := [], data := clusterPlan "a" },
          State := { diags := [], data := clusterState "a" } } (World.start ())).1.State
        = some (clusterState "a") ∧
      (clusterState "a").Template = (clusterPlan "a").Template) :=
  ⟨⟨by decide, (C6_cluster_create_update_state.1 Unit demoLibs demoRemote 1
      { diags := [], data := clusterPlan "a" } ()
      { Diagnostics := [], State := some (clusterState "a") }
      { remote := (), calls := [.SyncClusterAndWaitForReady "a" none,
          .GetClusterNameFromTemplate "a" "a" none,
          .GetTemplateFromClusterName "a" "export:a" none] }
      (clusterState "a") (by decide) (by decide)).1⟩,
   ⟨by decide, (C6_cluster_create_update_state.2 Unit demoLibs demoRemote
      { Plan := { diags := [], data := clusterPlan "a" },
        State := { diags := [], data := clusterState "a" } } () (clusterState "a")
      (by decide)).1⟩⟩

@[simp] theorem World.start_calls {σ : Type} (s : σ) : (World.start s).calls = [] := rfl

@[simp] theorem World.start_remote {σ : Type} (s : σ) : (World.start s).remote = s := rfl

theorem GetTemplateFromClusterName_ok {σ : Type} (R : Remote σ) (cluster : String)
    (w w1 : World σ) (t : String)
    (h : OmniClient.GetTemplateFromClusterName R cluster w = ((t, none), w1)) :
    R.exportTemplate cluster w.remote = (.ok t, w1.remote) := by
  unfold OmniClient.GetTemplateFromClusterName at h
  split at h
  · simp at h
  · next heq =>
    simp [World.log] at h
    obtain ⟨rfl, rfl⟩ := h
    simpa using heq

/-- C7: the prior state has `cluster_name = "old"` and the plan `cluster_name = "new"`; the
state `Update` writes has `cluster_name` and `id` equal to `"old"` and the kubeconfig of
cluster `"old"`, and the only client call asks for the kubeconfig of `"old"`. -/
theorem C7_update_keeps_state_cluster_name :
    (kubeconfigPlan "new").ClusterName = .value "new" ∧
    OmniKubeconfigResource.Update demoLibs demoRemote
        { Plan := { diags := [], data := kubeconfigPlan "new" },
          State := { diags := [], data := kubeconfigState "old" } } (World.start ()) =
      ({ Diagnostics := [],
         State := some { Kubeconfig := .value "kubeconfig:old", User := .null, Groups := .null,
                         ClusterName := .value "old", ID := .value "old" } },
       { remote := (),
         calls := [.GetKubeconfigWithoutOIDC "old" "admin" (some ["system:masters"])
                     "kubeconfig:old" none] }) := by
  decide

/-- C8: when `Create` of `omni_kubeconfig`, started with an empty call log, made its client
call and that call returned the kubeconfig `k` with a nil error, the call was for the plan's
`cluster_name`, and the state written has `cluster_name`, `user` and `groups` equal to the
plan's values, `id` equal to `cluster_name` and `kubeconfig` equal to `k`. -/
theorem C8_kubeconfig_create_state {σ : Type} (L : Libs) (R : Remote σ)
    (req : Got OmniKubeconfigResourceModel) (s : σ) (c u k : String) (g : GoSlice)
    (hcall : (OmniKubeconfigResource.Create L R req (World.start s)).2.calls
      = [.GetKubeconfigWithoutOIDC c u g k none]) :
    c = req.data.ClusterName.ValueString ∧
    (OmniKubeconfigResource.Create L R req (World.start s)).1.State =
      some { Kubeconfig := .value k, User := req.data.User, Groups := req.data.Groups,
             ClusterName := req.data.ClusterName, ID := req.data.ClusterName } := by
  by_cases h1 : hasError req.diags = true
  · simp [OmniKubeconfigResource.Create, h1] at hcall
  · cases hg : req.data.Groups.IsNull
    · by_cases h2 : hasError (req.diags ++ (L.elementsAs req.data.Groups).1) = true
      · simp [OmniKubeconfigResource.Create, h1, hg, h2] at hcall
      · rcases hget : OmniClient.GetKubeconfigWithoutOIDC R req.data.ClusterName.ValueString
          (if req.data.User.IsNull then "admin" else req.data.User.ValueString)
          (L.elementsAs req.data.Groups).2 (World.start s) with ⟨⟨k1, e1⟩, w1⟩
        have hl := GetKubeconfigWithoutOIDC_log R _ _ _ _ _ _ _ hget
        simp [OmniKubeconfigResource.Create, h1, hg, h2, hget, hl] at hcall ⊢
        exact ⟨hcall.1.symm, hcall.2.2.2.1⟩
    · rcases hget : OmniClient.GetKubeconfigWithoutOIDC R req.data.ClusterName.ValueString
        (if req.data.User.IsNull then "admin" else req.data.User.ValueString)
        (some ["system:masters"]) (World.start s) with ⟨⟨k1, e1⟩, w1⟩
      have hl := GetKubeconfigWithoutOIDC_log R _ _ _ _ _ _ _ hget
      simp [OmniKubeconfigResource.Create, h1, hg, hget, hl] at hcall ⊢
      exact ⟨hcall.1.symm, hcall.2.2.2.1⟩

/-- Witness for C8: creating the kubeconfig of `omni-cluster-1` on `demoRemote`. -/
theorem C8_kubeconfig_create_state_witness :
    (OmniKubeconfigResource.Create demoLibs demoRemote
        { diags := [], data := kubeconfigPlan "omni-cluster-1" } (World.start ())).1.State =
      some { Kubeconfig := .value "kubeconfig:omni-cluster-1",
             User := (kubeconfigPlan "omni-cluster-1").User,
             Groups := (kubeconfigPlan "omni-cluster-1").Groups,
             ClusterName := (kubeconfigPlan "omni-cluster-1").ClusterName,
             ID := (kubeconfigPlan "omni-cluster-1").ClusterName } :=
  (C8_kubeconfig_create_state demoLibs demoRemote
    { diags := [], data := kubeconfigPlan "omni-cluster-1" } () "omni-cluster-1" "admin"
    "kubeconfig:omni-cluster-1" (some ["system:masters"]) (by decide)).2

/-- C9: creating the kubeconfig of `omni-cluster-1` writes `kubeconfig = "kubeconfig:omni-cluster-1"`;
importing by the created `id` and running `Read` yields a state whose `kubeconfig` is null. -/
theorem C9_import_read_loses_kubeconfig :
    (OmniKubeconfigResource.Create demoLibs demoRemote
        { diags := [], data := kubeconfigPlan "omni-cluster-1" } (World.start ())).1.State =
      some { Kubeconfig := .value "kubeconfig:omni-cluster-1", User := .null, Groups := .null,
             ClusterName := .value "omni-cluster-1", ID := .value "omni-cluster-1" } ∧
    (OmniKubeconfigResource.ImportState "omni-cluster-1").State =
      some { Kubeconfig := .null, User := .null, Groups := .null, ClusterName := .null,
             ID := .value "omni-cluster-1" } ∧
    (OmniKubeconfigResource.Read
        { diags := [], data := { Kubeconfig := .null, User := .null, Groups := .null,
                                 ClusterName := .null, ID := .value "omni-cluster-1" } }
        (World.start ())).1.State =
      some { Kubeconfig := .null, User := .null, Groups := .null, ClusterName := .null,
             ID := .value "omni-cluster-1" } := by
  decide

/-- C10: after a `Create` of `omni_cluster` that wrote the state `st`, importing by the id of
`st` and running `Read` on the remote as `Create` left it (exporting a template does not
change the remote state) writes a state with the same `id` and `template_computed` as `st`. -/
theorem C10_cluster_import_read {σ : Type} (L : Libs) (R : Remote σ) (fuel : Nat)
    (req : Got OmniClusterResourceModel) (s : σ) (resp : Response OmniClusterResourceModel)
    (w1 : World σ) (st imp : OmniClusterResourceModel)
    (hcreate : OmniClusterResource.Create L R fuel req (World.start s) = some (resp, w1))
    (hst : resp.State = some st)
    (hro : ∀ n x, (R.exportTemplate n x).2 = x)
    (himp : (OmniClusterResource.ImportState st.ID.ValueString).State = some imp) :
    ∃ st1, (OmniClusterResource.Read R { diags := [], data := imp } w1).1.State = some st1 ∧
      st1.ID = st.ID ∧ st1.TemplateComputed = st.TemplateComputed := by
  unfold OmniClusterResource.Create at hcreate
  simp only at hcreate
  split at hcreate
  · simp at hcreate; obtain ⟨rfl, rfl⟩ := hcreate; simp at hst
  · split at hcreate
    · simp at hcreate
    · simp at hcreate; obtain ⟨rfl, rfl⟩ := hcreate; simp at hst
    · split at hcreate
      · simp at hcreate; obtain ⟨rfl, rfl⟩ := hcreate; simp at hst
      · next name w3 hname =>
        split at hcreate
        · simp at hcreate; obtain ⟨rfl, rfl⟩ := hcreate; simp at hst
        · next template w4 htemplate =>
          simp at hcreate; obtain ⟨rfl, rfl⟩ := hcreate
          simp at hst
          subst hst
          simp [OmniClusterResource.ImportState, TfString.ValueString] at himp
          subst himp
          have hexp := GetTemplateFromClusterName_ok R _ _ _ _ htemplate
          have hsame : w4.remote = w3.remote := by
            have := hro name w3.remote
            rw [hexp] at this
            exact this
          have hexp1 : R.exportTemplate name w4.remote = (.ok template, w4.remote) := by
            rw [hsame] at hexp ⊢
            exact hexp
          simp [OmniClusterResource.Read, hasError, OmniClient.GetTemplateFromClusterName,
            TfString.ValueString, hexp1]

/-- Witness for C10: the cluster planned by `clusterPlan "a"` on `demoRemote`. -/
theorem C10_cluster_import_read_witness :
    ∃ st1, (OmniClusterResource.Read demoRemote
        { diags := [], data := { Template := .null, TemplateComputed := .null, ID := .value "a",
                                 ForceManifestUpdating := .null, DeleteMachineLinks := .null } }
        { remote := (), calls := [.SyncClusterAndWaitForReady "a" none,
            .GetClusterNameFromTemplate "a" "a" none,
            .GetTemplateFromClusterName "a" "export:a" none] }).1.State = some st1 ∧
      st1.ID = (clusterState "a").ID ∧
      st1.TemplateComputed = (clusterState "a").TemplateComputed :=
  C10_cluster_import_read demoLibs demoRemote 1 { diags := [], data := clusterPlan "a" } ()
    { Diagnostics := [], State := some (clusterState "a") }
    { remote := (), calls := [.SyncClusterAndWaitForReady "a" none,
        .GetClusterNameFromTemplate "a" "a" none,
        .GetTemplateFromClusterName "a" "export:a" none] }
    (clusterState "a") _ (by decide) (by decide) (fun _ _ => rfl) (by decide)

/-! ### Error surfacing and call counts of the handlers -/

@[simp] theorem surfaced_nil (ds : List Diagnostic) : surfaced [] ds := by
  intro c hc
  simp at hc

theorem surfaced_cons (c : Call) (cs : List Call) (ds : List Diagnostic) :
    surfaced (c :: cs) ds ↔
      (∀ e, c.err = some e →
        ∃ d ∈ ds, d.severity = Severity.error ∧ ∃ pre suf, d.detail = pre ++ e ++ suf) ∧
      surfaced cs ds := by
  simp [surfaced]

@[simp] theorem exists_addError (ds : List Diagnostic) (summary pre e : String) :
    ∃ d ∈ addError ds summary (pre ++ e),
      d.severity = Severity.error ∧ ∃ p q, d.detail = p ++ e ++ q :=
  ⟨_, mem_addError ds summary (pre ++ e), rfl, pre, "", by simp⟩

section Traces

variable {σ : Type}

theorem cluster_create_trace (L : Libs) (R : Remote σ) (fuel : Nat)
    (req : Got OmniClusterResourceModel) (s : σ) (resp : Response OmniClusterResourceModel)
    (w1 : World σ)
    (h : OmniClusterResource.Create L R fuel req (World.start s) = some (resp, w1)) :
    surfaced w1.calls resp.Diagnostics ∧ w1.calls.length ≤ 3 := by
  unfold OmniClusterResource.Create at h
  simp only at h
  split at h
  · simp at h; obtain ⟨rfl, rfl⟩ := h; simp
  · split at h
    · simp at h
    · next err w2 h1 =>
      have l1 := SyncClusterAndWaitForReady_log L R _ _ _ _ _ h1
      simp at h; obtain ⟨rfl, rfl⟩ := h
      simp [l1, surfaced_cons, Call.err]
    · next w2 h1 =>
      have l1 := SyncClusterAndWaitForReady_log L R _ _ _ _ _ h1
      split at h
      · next err w3 h2 =>
        have l2 := (GetClusterNameFromTemplate_log L _ _ _ _ _ h2).1
        simp at h; obtain ⟨rfl, rfl⟩ := h
        simp [l2, l1, surfaced_cons, Call.err]
      · next name w3 h2 =>
        have l2 := (GetClusterNameFromTemplate_log L _ _ _ _ _ h2).1
        split at h
        · next err w4 h3 =>
          have l3 := GetTemplateFromClusterName_log R _ _ _ _ _ h3
          simp at h; obtain ⟨rfl, rfl⟩ := h
          simp [l3, l2, l1, surfaced_cons, Call.err]
        · next template w4 h3 =>
          have l3 := GetTemplateFromClusterName_log R _ _ _ _ _ h3
          simp at h; obtain ⟨rfl, rfl⟩ := h
          simp [l3, l2, l1, surfaced_cons, Call.err]

theorem cluster_read_trace (R : Remote σ) (req : Got OmniClusterResourceModel) (s : σ) :
    surfaced (OmniClusterResource.Read R req (World.start s)).2.calls
      (OmniClusterResource.Read R req (World.start s)).1.Diagnostics ∧
    (OmniClusterResource.Read R req (World.start s)).2.calls.length ≤ 1 := by
  unfold OmniClusterResource.Read
  simp only
  split
  · simp
  · split
    · next err w1 h1 =>
      have l1 := GetTemplateFromClusterName_log R _ _ _ _ _ h1
      simp [l1, surfaced_cons, Call.err]
    · next template w1 h1 =>
      have l1 := GetTemplateFromClusterName_log R _ _ _ _ _ h1
      simp [l1, surfaced_cons, Call.err]

theorem cluster_update_trace (L : Libs) (R : Remote σ)
    (req : UpdateRequest OmniClusterResourceModel) (s : σ) :
    surfaced (OmniClusterResource.Update L R req (World.start s)).2.calls
      (OmniClusterResource.Update L R req (World.start s)).1.Diagnostics ∧
    (OmniClusterResource.Update L R req (World.start s)).2.calls.length ≤ 4 := by
  unfold OmniClusterResource.Update
  simp only
  split
  · simp
  · split
    · simp
    · split
      · simp
      · simp
      · split
        · next err w1 h1 =>
          have l1 := SyncCluster_log R _ _ _ _ h1
          simp [l1, surfaced_cons, Call.err]
        · next w1 h1 =>
          have l1 := SyncCluster_log R _ _ _ _ h1
          split
          · next err w2 h2 =>
            have l2 := (GetClusterNameFromTemplate_log L _ _ _ _ _ h2).1
            simp [l2, l1, surfaced_cons, Call.err]
          · next name w2 h2 =>
            have l2 := (GetClusterNameFromTemplate_log L _ _ _ _ _ h2).1
            split
            · next err w3 h3 =>
              split at h3
              · have l3 := SyncManifests_log R _ _ _ _ h3
                simp [l3, l2, l1, surfaced_cons, Call.err]
              · simp at h3
            · next w3 h3 =>
              split at h3
              · have l3 := SyncManifests_log R _ _ _ _ h3
                split
                · next err w4 h4 =>
                  have l4 := GetTemplateFromClusterName_log R _ _ _ _ _ h4
                  simp [l4, l3, l2, l1, surfaced_cons, Call.err]
                · next template w4 h4 =>
                  have l4 := GetTemplateFromClusterName_log R _ _ _ _ _ h4
                  simp [l4, l3, l2, l1, surfaced_cons, Call.err]
              · simp at h3
                subst h3
                split
                · next err w4 h4 =>
                  have l4 := GetTemplateFromClusterName_log R _ _ _ _ _ h4
                  simp [l4, l2, l1, surfaced_cons, Call.err]
                · next template w4 h4 =>
                  have l4 := GetTemplateFromClusterName_log R _ _ _ _ _ h4
                  simp [l4, l2, l1, surfaced_cons, Call.err]

theorem cluster_delete_trace (L : Libs) (R : Remote σ) (req : Got OmniClusterResourceModel)
    (s : σ) :
    surfaced (OmniClusterResource.Delete L R req (World.start s)).2.calls
      (OmniClusterResource.Delete L R req (World.start s)).1.Diagnostics ∧
    (OmniClusterResource.Delete L R req (World.start s)).2.calls.length ≤ 5 := by
  unfold OmniClusterResource.Delete
  simp only
  split
  · simp
  · split
    · next err w1 h1 =>
      have l1 := (GetClusterNameFromTemplate_log L _ _ _ _ _ h1).1
      simp [l1, surfaced_cons, Call.err]
    · next name w1 h1 =>
      have l1 := (GetClusterNameFromTemplate_log L _ _ _ _ _ h1).1
      split
      · next err w2 h2 =>
        have l2 := GetClusterMachines_log R _ _ _ _ _ h2
        simp [l2, l1, surfaced_cons, Call.err]
      · next machinesToDelete w2 h2 =>
        have l2 := GetClusterMachines_log R _ _ _ _ _ h2
        split
        · next err w3 h3 =>
          have l3 := DeleteCluster_log R _ _ _ _ h3
          simp [l3, l2, l1, surfaced_cons, Call.err]
        · next w3 h3 =>
          have l3 := DeleteCluster_log R _ _ _ _ h3
          split
          · split
            · next err w4 h4 =>
              have l4 := DeleteClusterMachines_log R _ _ _ _ h4
              simp [l4, l3, l2, l1, surfaced_cons, Call.err]
            · next w4 h4 =>
              have l4 := DeleteClusterMachines_log R _ _ _ _ h4
              simp [l4, l3, l2, l1, surfaced_cons, Call.err]
          · simp [l3, l2, l1, surfaced_cons, Call.err]

theorem kubeconfig_create_trace (L : Libs) (R : Remote σ)
    (req : Got OmniKubeconfigResourceModel) (s : σ) :
    surfaced (OmniKubeconfigResource.Create L R req (World.start s)).2.calls
      (OmniKubeconfigResource.Create L R req (World.start s)).1.Diagnostics ∧
    (OmniKubeconfigResource.Create L R req (World.start s)).2.calls.length ≤ 1 := by
  by_cases h1 : hasError req.diags = true
  · simp [OmniKubeconfigResource.Create, h1]
  · by_cases h2 : hasError (req.diags ++
        (if req.data.Groups.IsNull then (([], some ["system:masters"]) : List Diagnostic × GoSlice)
          else L.elementsAs req.data.Groups).1) = true
    · simp [OmniKubeconfigResource.Create, h1, h2]
    · rcases hget : OmniClient.GetKubeconfigWithoutOIDC R req.data.ClusterName.ValueString
        (if req.data.User.IsNull then "admin" else req.data.User.ValueString)
        (if req.data.Groups.IsNull then (([], some ["system:masters"]) : List Diagnostic × GoSlice)
          else L.elementsAs req.data.Groups).2 (World.start s) with ⟨⟨k1, e1⟩, w1⟩
      have hl := GetKubeconfigWithoutOIDC_log R _ _ _ _ _ _ _ hget
      cases e1 <;>
        simp [OmniKubeconfigResource.Create, h1, h2, hget, hl, surfaced_cons, Call.err]

theorem kubeconfig_update_trace (L : Libs) (R : Remote σ)
    (req : UpdateRequest OmniKubeconfigResourceModel) (s : σ) :
    surfaced (OmniKubeconfigResource.Update L R req (World.start s)).2.calls
      (OmniKubeconfigResource.Update L R req (World.start s)).1.Diagnostics ∧
    (OmniKubeconfigResource.Update L R req (World.start s)).2.calls.length ≤ 1 := by
  by_cases h0 : hasError req.State.diags = true
  · simp [OmniKubeconfigResource.Update, h0]
  by_cases h1 : hasError (req.State.diags ++ req.Plan.diags) = true
  · simp [OmniKubeconfigResource.Update, h0, h1]
  · by_cases h2 : hasError (req.State.diags ++ (req.Plan.diags ++
        (if req.Plan.data.Groups.IsNull then
            (([], some ["system:masters"]) : List Diagnostic × GoSlice)
          else L.elementsAs req.Plan.data.Groups).1)) = true
    · simp [OmniKubeconfigResource.Update, h0, h1, h2]
    · rcases hget : OmniClient.GetKubeconfigWithoutOIDC R req.State.data.ClusterName.ValueString
        (if req.Plan.data.User.IsNull then "admin" else req.Plan.data.User.ValueString)
        (if req.Plan.data.Groups.IsNull then
            (([], some ["system:masters"]) : List Diagnostic × GoSlice)
          else L.elementsAs req.Plan.data.Groups).2 (World.start s) with ⟨⟨k1, e1⟩, w1⟩
      have hl := GetKubeconfigWithoutOIDC_log R _ _ _ _ _ _ _ hget
      cases e1 <;>
        simp [OmniKubeconfigResource.Update, h0, h1, h2, hget, hl, surfaced_cons, Call.err]

theorem talosconfig_read_trace (R : Remote σ) (req : Got OmniTalosconfigDataSourceModel)
    (s : σ) :
    surfaced (OmniTalosconfigDataSource.Read R req (World.start s)).2.calls
      (OmniTalosconfigDataSource.Read R req (World.start s)).1.Diagnostics ∧
    (OmniTalosconfigDataSource.Read R req (World.start s)).2.calls.length ≤ 1 := by
  by_cases h1 : hasError req.diags = true
  · simp [OmniTalosconfigDataSource.Read, h1]
  · rcases hget : OmniClient.GetTalosconfig R req.data.ClusterName.ValueString (World.start s)
      with ⟨⟨k1, e1⟩, w1⟩
    have hl := GetTalosconfig_log R _ _ _ _ _ hget
    cases e1 <;> simp [OmniTalosconfigDataSource.Read, h1, hget, hl, surfaced_cons, Call.err]

end Traces

section MachineRead

variable {σ : Type}

theorem machine_read_diags (R : Remote σ) (fuel : Nat) (req : Got OmniMachineDataSourceModel)
    (w w1 : World σ) (resp : Response OmniMachineDataSourceModel)
    (h : OmniMachineDataSource.Read R fuel req w = some (.done resp, w1)) :
    resp.Diagnostics = req.diags := by
  unfold OmniMachineDataSource.Read at h
  simp only at h
  split at h
  · simp at h; rw [← h.1]
  · split at h
    · simp at h
    · simp at h
    · simp at h; rw [← h.1]

theorem machine_lookup_once (R : Remote σ) (fuel : Nat) (data : OmniMachineDataSourceModel)
    (s : σ) (hwait : data.WaitForRegistration.ValueBool = false) :
    ∃ out w1, OmniMachineDataSource.lookup R (fuel + 1) data (World.start s) = some (out, w1) ∧
      w1.calls.length ≤ 4 := by
  unfold OmniMachineDataSource.lookup
  simp only
  split
  · next machine w1 h1 =>
    refine ⟨_, _, rfl, ?_⟩
    split at h1
    · simp at h1
    · obtain ⟨e, l1⟩ := FindMachineByUuid_log R _ _ _ _ h1
      simp [l1]
  · next w1 h1 =>
    have l1 : w1.calls.length ≤ 2 := by
      split at h1
      · simp at h1; simp [← h1]
      · obtain ⟨e, l1⟩ := FindMachineByUuid_log R _ _ _ _ h1
        simp [l1]
    split
    · next machine w2 h2 =>
      refine ⟨_, _, rfl, ?_⟩
      split at h2
      · simp at h2
      · obtain ⟨e, l2⟩ := FindMachineByHardwareAddress_log R _ _ _ _ h2
        simp [l2]; omega
    · next w2 h2 =>
      have l2 : w2.calls.length ≤ 4 := by
        split at h2
        · simp at h2; rw [← h2]; omega
        · obtain ⟨e, l2⟩ := FindMachineByHardwareAddress_log R _ _ _ _ h2
          simp [l2]; omega
      simp only [hwait, Bool.not_false, if_true]
      exact ⟨_, _, rfl, l2⟩

theorem machine_read_once (R : Remote σ) (fuel : Nat) (req : Got OmniMachineDataSourceModel)
    (s : σ) (hwait : req.data.WaitForRegistration.ValueBool = false) :
    ∃ out w1, OmniMachineDataSource.Read R (fuel + 1) req (World.start s) = some (out, w1) ∧
      w1.calls.length ≤ 4 := by
  obtain ⟨out, w1, h, hlen⟩ := machine_lookup_once R fuel req.data s hwait
  unfold OmniMachineDataSource.Read
  simp only
  split
  · exact ⟨_, _, rfl, by simp⟩
  · rw [h]
    cases out with
    | done data => exact ⟨_, _, rfl, hlen⟩
    | panic => exact ⟨_, _, rfl, hlen⟩

theorem machine_lookup_waits (mac : String) (fuel : Nat) (w : World Unit) :
    OmniMachineDataSource.lookup demoRemote fuel (machineConfig mac (.value true)) w = none := by
  induction fuel generalizing w with
  | zero => rfl
  | succ n ih =>
    unfold OmniMachineDataSource.lookup
    simp [machineConfig, TfString.IsNull, TfString.ValueString, TfBool.ValueBool,
      OmniClient.FindMachineByHardwareAddress, OmniClient.GetMachines, demoRemote]
    exact ih _

end MachineRead

/-- C4 (as stated, refuted): `omni_machine` Read with `hardware_address` set, on a remote
whose machine listing fails with "unavailable": the call `GetMachines` made inside
`FindMachineByHardwareAddress` returns that error, yet the response has no diagnostic. -/
theorem C4_machine_read_drops_list_error :
    OmniMachineDataSource.Read failingListRemote 1
        { diags := [], data := machineConfig "01:02:03:04:05:06" .null } (World.start ()) =
      some (.done { Diagnostics := [],
                    State := some (machineConfig "01:02:03:04:05:06" .null) },
            { remote := (),
              calls := [.GetMachines (some "unavailable"),
                        .FindMachineByHardwareAddress "01:02:03:04:05:06" none] }) ∧
    ¬ surfaced [.GetMachines (some "unavailable"),
                .FindMachineByHardwareAddress "01:02:03:04:05:06" none] [] := by
  refine ⟨by decide, ?_⟩
  intro h
  obtain ⟨d, hd, -⟩ := h (.GetMachines (some "unavailable")) (by simp) "unavailable" rfl
  simp at hd

/-- C4 (amended): in `omni_cluster` Create, Read, Update and Delete, `omni_kubeconfig` Create
and Update and `omni_talosconfig` Read, every error returned by a client call made by the
handler appears in an error diagnostic whose detail contains the error message; `omni_machine`
Read adds no diagnostic of its own (its lookups return no error value). -/
theorem C4_client_errors_surfaced :
    (∀ (σ : Type) (L : Libs) (R : Remote σ) (fuel : Nat) (req : Got OmniClusterResourceModel)
      (s : σ) (resp : Response OmniClusterResourceModel) (w1 : World σ),
      OmniClusterResource.Create L R fuel req (World.start s) = some (resp, w1) →
      surfaced w1.calls resp.Diagnostics) ∧
    (∀ (σ : Type) (R : Remote σ) (req : Got OmniClusterResourceModel) (s : σ),
      surfaced (OmniClusterResource.Read R req (World.start s)).2.calls
        (OmniClusterResource.Read R req (World.start s)).1.Diagnostics) ∧
    (∀ (σ : Type) (L : Libs) (R : Remote σ) (req : UpdateRequest OmniClusterResourceModel)
      (s : σ),
      surfaced (OmniClusterResource.Update L R req (World.start s)).2.calls
        (OmniClusterResource.Update L R req (World.start s)).1.Diagnostics) ∧
    (∀ (σ : Type) (L : Libs) (R : Remote σ) (req : Got OmniClusterResourceModel) (s : σ),
      surfaced (OmniClusterResource.Delete L R req (World.start s)).2.calls
        (OmniClusterResource.Delete L R req (World.start s)).1.Diagnostics) ∧
    (∀ (σ : Type) (L : Libs) (R : Remote σ) (req : Got OmniKubeconfigResourceModel) (s : σ),
      surfaced (OmniKubeconfigResource.Create L R req (World.start s)).2.calls
        (OmniKubeconfigResource.Create L R req (World.start s)).1.Diagnostics) ∧
    (∀ (σ : Type) (L : Libs) (R : Remote σ) (req : UpdateRequest OmniKubeconfigResourceModel)
      (s : σ),
      surfaced (OmniKubeconfigResource.Update L R req (World.start s)).2.calls
        (OmniKubeconfigResource.Update L R req (World.start s)).1.Diagnostics) ∧
    (∀ (σ : Type) (R : Remote σ) (req : Got OmniTalosconfigDataSourceModel) (s : σ),
      surfaced (OmniTalosconfigDataSource.Read R req (World.start s)).2.calls
        (OmniTalosconfigDataSource.Read R req (World.start s)).1.Diagnostics) ∧
    (∀ (σ : Type) (R : Remote σ) (fuel : Nat) (req : Got OmniMachineDataSourceModel)
      (w w1 : World σ) (resp : Response OmniMachineDataSourceModel),
      OmniMachineDataSource.Read R fuel req w = some (.done resp, w1) →
      resp.Diagnostics = req.diags) :=
  ⟨fun _ L R fuel req s resp w1 h => (cluster_create_trace L R fuel req s resp w1 h).1,
   fun _ R req s => (cluster_read_trace R req s).1,
   fun _ L R req s => (cluster_update_trace L R req s).1,
   fun _ L R req s => (cluster_delete_trace L R req s).1,
   fun _ L R req s => (kubeconfig_create_trace L R req s).1,
   fun _ L R req s => (kubeconfig_update_trace L R req s).1,
   fun _ R req s => (talosconfig_read_trace R req s).1,
   fun _ R fuel req w w1 resp h => machine_read_diags R fuel req w w1 resp h⟩

/-- Witness for C4: `omni_cluster` Create of `clusterPlan "a"` on `demoRemote`, and `omni_machine`
Read on the remote whose listing fails. -/
theorem C4_client_errors_surfaced_witness :
    surfaced [.SyncClusterAndWaitForReady "a" none, .GetClusterNameFromTemplate "a" "a" none,
              .GetTemplateFromClusterName "a" "export:a" none] [] ∧
    ({ Diagnostics := [], State := some (machineConfig "01:02:03:04:05:06" .null) } :
        Response OmniMachineDataSourceModel).Diagnostics =
      ({ diags := [], data := machineConfig "01:02:03:04:05:06" .null } :
        Got OmniMachineDataSourceModel).diags :=
  ⟨C4_client_errors_surfaced.1 Unit demoLibs demoRemote 1
      { diags := [], data := clusterPlan "a" } ()
      { Diagnostics := [], State := some (clusterState "a") }
      { remote := (), calls := [.SyncClusterAndWaitForReady "a" none,
          .GetClusterNameFromTemplate "a" "a" none,
          .GetTemplateFromClusterName "a" "export:a" none] } (by decide),
   C4_client_errors_surfaced.2.2.2.2.2.2.2 Unit failingListRemote 1
      { diags := [], data := machineConfig "01:02:03:04:05:06" .null } (World.start ())
      { remote := (),
        calls := [.GetMachines (some "unavailable"),
                  .FindMachineByHardwareAddress "01:02:03:04:05:06" none] }
      { Diagnostics := [], State := some (machineConfig "01:02:03:04:05:06" .null) }
      (by decide)⟩

/-- C5 (as stated, refuted): `omni_machine` Read with `wait_for_registration = true` on a
remote where no machine is registered never completes: no amount of fuel lets it return. -/
theorem C5_machine_read_waits_forever :
    ¬ ∃ (fuel : Nat) (out : Outcome (Response OmniMachineDataSourceModel) × World Unit),
      OmniMachineDataSource.Read demoRemote fuel
        { diags := [], data := machineConfig "01:02:03:04:05:06" (.value true) }
        (World.start ()) = some out := by
  rintro ⟨fuel, out, h⟩
  simp [OmniMachineDataSource.Read, hasError, machine_lookup_waits] at h

/-- C5 (amended): `omni_cluster` Read, Update and Delete, `omni_kubeconfig` Create, Read, Update
and Delete and `omni_talosconfig` Read always complete, after at most 1, 4, 5, 1, 0, 1, 0 and 1
logged client calls; `omni_machine` Read with `wait_for_registration` not true completes
in one pass of its loop after at most 4 logged calls; `omni_cluster` Create, whenever its
readiness poll ends, has made at most 3 client calls. -/
theorem C5_bounded_client_calls :
    (∀ (σ : Type) (R : Remote σ) (req : Got OmniClusterResourceModel) (s : σ),
      (OmniClusterResource.Read R req (World.start s)).2.calls.length ≤ 1) ∧
    (∀ (σ : Type) (L : Libs) (R : Remote σ) (req : UpdateRequest OmniClusterResourceModel)
      (s : σ), (OmniClusterResource.Update L R req (World.start s)).2.calls.length ≤ 4) ∧
    (∀ (σ : Type) (L : Libs) (R : Remote σ) (req : Got OmniClusterResourceModel) (s : σ),
      (OmniClusterResource.Delete L R req (World.start s)).2.calls.length ≤ 5) ∧
    (∀ (σ : Type) (L : Libs) (R : Remote σ) (req : Got OmniKubeconfigResourceModel) (s : σ),
      (OmniKubeconfigResource.Create L R req (World.start s)).2.calls.length ≤ 1) ∧
    (∀ (σ : Type) (req : Got OmniKubeconfigResourceModel) (s : σ),
      (OmniKubeconfigResource.Read req (World.start s)).2.calls.length = 0) ∧
    (∀ (σ : Type) (L : Libs) (R : Remote σ) (req : UpdateRequest OmniKubeconfigResourceModel)
      (s : σ), (OmniKubeconfigResource.Update L R req (World.start s)).2.calls.length ≤ 1) ∧
    (∀ (σ : Type) (req : Got OmniKubeconfigResourceModel) (s : σ),
      (OmniKubeconfigResource.Delete req (World.start s)).2.calls.length = 0) ∧
    (∀ (σ : Type) (R : Remote σ) (req : Got OmniTalosconfigDataSourceModel) (s : σ),
      (OmniTalosconfigDataSource.Read R req (World.start s)).2.calls.length ≤ 1) ∧
    (∀ (σ : Type) (R : Remote σ) (fuel : Nat) (req : Got OmniMachineDataSourceModel) (s : σ),
      req.data.WaitForRegistration.ValueBool = false →
      ∃ out w1, OmniMachineDataSource.Read R (fuel + 1) req (World.start s) = some (out, w1) ∧
        w1.calls.length ≤ 4) ∧
    (∀ (σ : Type) (L : Libs) (R : Remote σ) (fuel : Nat) (req : Got OmniClusterResourceModel)
      (s : σ) (resp : Response OmniClusterResourceModel) (w1 : World σ),
      OmniClusterResource.Create L R fuel req (World.start s) = some (resp, w1) →
      w1.calls.length ≤ 3) :=
  ⟨fun _ R req s => (cluster_read_trace R req s).2,
   fun _ L R req s => (cluster_update_trace L R req s).2,
   fun _ L R req s => (cluster_delete_trace L R req s).2,
   fun _ L R req s => (kubeconfig_create_trace L R req s).2,
   fun _ req s => by
     unfold OmniKubeconfigResource.Read
     simp only
     split <;> rfl,
   fun _ L R req s => (kubeconfig_update_trace L R req s).2,
   fun _ _ _ => rfl,
   fun _ R req s => (talosconfig_read_trace R req s).2,
   fun _ R fuel req s h => machine_read_once R fuel req s h,
   fun _ L R fuel req s resp w1 h => (cluster_create_trace L R fuel req s resp w1 h).2⟩

/-- Witness for C5: `omni_machine` Read without `wait_for_registration` on `demoRemote`, and
`omni_cluster` Create of `clusterPlan "a"`. -/
theorem C5_bounded_client_calls_witness :
    (∃ out w1, OmniMachineDataSource.Read demoRemote (0 + 1)
        { diags := [], data := machineConfig "01:02:03:04:05:06" .null } (World.start ())
          = some (out, w1) ∧ w1.calls.length ≤ 4) ∧
    [Call.SyncClusterAndWaitForReady "a" none, Call.GetClusterNameFromTemplate "a" "a" none,
      Call.GetTemplateFromClusterName "a" "export:a" none].length ≤ 3 :=
  ⟨C5_bounded_client_calls.2.2.2.2.2.2.2.2.1 Unit demoRemote 0
      { diags := [], data := machineConfig "01:02:03:04:05:06" .null } () (by decide),
   C5_bounded_client_calls.2.2.2.2.2.2.2.2.2 Unit demoLibs demoRemote 1
      { diags := [], data := clusterPlan "a" } ()
      { Diagnostics := [], State := some (clusterState "a") }
      { remote := (), calls := [.SyncClusterAndWaitForReady "a" none,
          .GetClusterNameFromTemplate "a" "a" none,
          .GetTemplateFromClusterName "a" "export:a" none] } (by decide)⟩

theorem hardwareAddressMatches_true (mac : String) (m : MachineStatus)
    (h : hardwareAddressMatches mac m = true) :
    mac ≠ "" ∧ ∃ link rest, m.Network = some (link :: rest) ∧ link.HardwareAddress = mac := by
  unfold hardwareAddressMatches at h
  cases hn : m.Network with
  | none => simp [hn] at h
  | some links =>
    cases links with
    | nil => simp [hn] at h
    | cons link rest =>
      simp [hn] at h
      exact ⟨h.1, link, rest, rfl, h.2.symm⟩

theorem FindMachineByHardwareAddress_found {σ : Type} (R : Remote σ) (mac : String)
    (w w1 : World σ) (m : MachineStatus)
    (h : OmniClient.FindMachineByHardwareAddress R mac w = (some m, w1)) :
    hardwareAddressMatches mac m = true := by
  unfold OmniClient.FindMachineByHardwareAddress at h
  split at h
  · simp at h
  · split at h
    · next machine hfind =>
      simp at h
      obtain ⟨rfl, -⟩ := h
      exact List.find?_some hfind
    · simp at h

theorem lookup_by_hardware_address {σ : Type} (R : Remote σ) (mac : String) (fuel : Nat)
    (data : OmniMachineDataSourceModel) (w w1 : World σ)
    (out : Outcome OmniMachineDataSourceModel)
    (hmac : data.HardwareAddress = .value mac) (huuid : data.UUID = .null)
    (h : OmniMachineDataSource.lookup R fuel data w = some (out, w1)) :
    (∃ m link rest,
        out = .done { data with UUID := .value m.ID, ID := .value m.ID,
                                HardwareAddress := .value mac } ∧
        m.Network = some (link :: rest) ∧ link.HardwareAddress = mac ∧
        w1.calls.getLast? = some (.FindMachineByHardwareAddress mac (some m))) ∨
    (out = .done data ∧ data.WaitForRegistration.ValueBool = false ∧
        w1.calls.getLast? = some (.FindMachineByHardwareAddress mac none)) := by
  induction fuel generalizing w with
  | zero => simp [OmniMachineDataSource.lookup] at h
  | succ n ih =>
    unfold OmniMachineDataSource.lookup at h
    simp only [huuid, hmac, TfString.IsNull, TfString.ValueString, if_true] at h
    split at h
    · next machine w3 hf =>
      have hm := FindMachineByHardwareAddress_found R mac _ _ _ hf
      obtain ⟨e, hl⟩ := FindMachineByHardwareAddress_log R _ _ _ _ hf
      obtain ⟨-, link, rest, hnet, hlink⟩ := hardwareAddressMatches_true mac machine hm
      simp at h
      obtain ⟨rfl, rfl⟩ := h
      left
      refine ⟨machine, link, rest, ?_, hnet, hlink, ?_⟩
      · simp [takeMachine, hnet, hlink]
      · rw [hl, List.getLast?_append]
        simp
    · next w3 hf =>
      obtain ⟨e, hl⟩ := FindMachineByHardwareAddress_log R _ _ _ _ hf
      split at h
      · next hw =>
        simp at h
        obtain ⟨rfl, rfl⟩ := h
        right
        refine ⟨rfl, by simpa using hw, ?_⟩
        rw [hl, List.getLast?_append]
        simp
      · exact ih _ h

/-- C11: for an `omni_machine` configuration with `hardware_address = mac` and `uuid` null (and
the computed `id` null), whenever `Read` returns it has written a state whose
`hardware_address` is `mac`; either the last lookup found a machine, and then `id` and `uuid`
are its ID and its first network link has address `mac`, or the last lookup found none,
`wait_for_registration` is not true, and `id` and `uuid` are null.  When
`wait_for_registration` is not true, `Read` returns after one pass of its loop. -/
theorem C11_machine_read_by_hardware_address {σ : Type} (R : Remote σ) (fuel : Nat)
    (req : Got OmniMachineDataSourceModel) (s : σ) (mac : String)
    (hdiag : hasError req.diags = false)
    (hmac : req.data.HardwareAddress = .value mac) (huuid : req.data.UUID = .null)
    (hid : req.data.ID = .null) :
    (∀ out w1, OmniMachineDataSource.Read R fuel req (World.start s) = some (out, w1) →
      ∃ st, out = .done { Diagnostics := req.diags, State := some st } ∧
        st.HardwareAddress = .value mac ∧
        ((∃ m, w1.calls.getLast? = some (.FindMachineByHardwareAddress mac (some m)) ∧
            st.ID = .value m.ID ∧ st.UUID = .value m.ID ∧
            ∃ link rest, m.Network = some (link :: rest) ∧ link.HardwareAddress = mac) ∨
         (w1.calls.getLast? = some (.FindMachineByHardwareAddress mac none) ∧
            req.data.WaitForRegistration.ValueBool = false ∧
            st.ID = .null ∧ st.UUID = .null))) ∧
    (req.data.WaitForRegistration.ValueBool = false →
      ∃ out w1, OmniMachineDataSource.Read R (fuel + 1) req (World.start s) = some (out, w1)) := by
  refine ⟨?_, fun hwait => ?_⟩
  · intro out w1 h
    unfold OmniMachineDataSource.Read at h
    simp only [hdiag, Bool.false_eq_true, if_false] at h
    split at h
    · simp at h
    · next hl =>
      rcases lookup_by_hardware_address R mac fuel req.data _ _ _ hmac huuid hl with
        ⟨m, link, rest, hout, hnet, hlink, hlast⟩ | ⟨hout, hwait, hlast⟩
      · simp at hout
      · simp at hout
    · next data w2 hl =>
      simp at h
      obtain ⟨rfl, rfl⟩ := h
      rcases lookup_by_hardware_address R mac fuel req.data _ _ _ hmac huuid hl with
        ⟨m, link, rest, hout, hnet, hlink, hlast⟩ | ⟨hout, hwait, hlast⟩
      · simp at hout
        subst hout
        exact ⟨_, rfl, rfl, Or.inl ⟨m, hlast, rfl, rfl, link, rest, hnet, hlink⟩⟩
      · simp at hout
        subst hout
        exact ⟨_, rfl, hmac, Or.inr ⟨hlast, hwait, hid, huuid⟩⟩
  · obtain ⟨out, w1, h, -⟩ := machine_read_once R fuel req s hwait
    exact ⟨out, w1, h⟩

/-- Witness for C11: the configuration of `TestAccOmniMachineDataSource` on a remote where
machine `m1` is registered with that hardware address. -/
theorem C11_machine_read_by_hardware_address_witness :
    ∃ st, (Outcome.done { Diagnostics := [],
                          State := some (machineFound "m1" "01:02:03:04:05:06" .null) } :
            Outcome (Response OmniMachineDataSourceModel)) =
          .done { Diagnostics := [], State := some st } ∧
      st.HardwareAddress = .value "01:02:03:04:05:06" :=
  have h := (C11_machine_read_by_hardware_address
    (listRemote [linkedMachine "m1" "01:02:03:04:05:06"]) 1
    { diags := [], data := machineConfig "01:02:03:04:05:06" .null } () "01:02:03:04:05:06"
    (by decide) (by decide) (by decide) (by decide)).1
    (.done { Diagnostics := [],
             State := some (machineFound "m1" "01:02:03:04:05:06" .null) })
    { remote := (),
      calls := [.GetMachines none,
                .FindMachineByHardwareAddress "01:02:03:04:05:06"
                  (some (linkedMachine "m1" "01:02:03:04:05:06"))] }
    (by decide)
  h.imp fun _ hst => ⟨hst.1, hst.2.1⟩

/-- C12: when `req.Config.Get` reports no error, `ValidateConfig` of `omni_machine` appends the
attribute error "Missing Attribute Configuration" on the path `hardware_address` to the
diagnostics if both `uuid` and `hardware_address` are null, and leaves the diagnostics as they
are if at least one of them is not null; so a diagnostic is added exactly when both are null. -/
theorem C12_validate_config {req : Got OmniMachineDataSourceModel}
    (hdiag : hasError req.diags = false) :
    ((req.data.UUID.IsNull = true ∧ req.data.HardwareAddress.IsNull = true) →
      OmniMachineDataSource.ValidateConfig req =
        req.diags ++ [{ severity := Severity.error, summary := "Missing Attribute Configuration",
                        detail := "hardware_address must be set if uuid is not.",
                        path := some "hardware_address" }]) ∧
    (¬ (req.data.UUID.IsNull = true ∧ req.data.HardwareAddress.IsNull = true) →
      OmniMachineDataSource.ValidateConfig req = req.diags) ∧
    (OmniMachineDataSource.ValidateConfig req ≠ req.diags ↔
      (req.data.UUID.IsNull = true ∧ req.data.HardwareAddress.IsNull = true)) := by
  have h1 : (req.data.UUID.IsNull = true ∧ req.data.HardwareAddress.IsNull = true) →
      OmniMachineDataSource.ValidateConfig req =
        req.diags ++ [{ severity := Severity.error, summary := "Missing Attribute Configuration",
                        detail := "hardware_address must be set if uuid is not.",
                        path := some "hardware_address" }] := by
    intro h
    simp [OmniMachineDataSource.ValidateConfig, hdiag, h.1, h.2, addAttributeError]
  have h2 : ¬ (req.data.UUID.IsNull = true ∧ req.data.HardwareAddress.IsNull = true) →
      OmniMachineDataSource.ValidateConfig req = req.diags := by
    intro h
    simp only [OmniMachineDataSource.ValidateConfig, hdiag, Bool.false_eq_true, if_false,
      Bool.and_eq_true]
    rw [if_neg h]
  refine ⟨h1, h2, ?_⟩
  constructor
  · intro hne
    by_contra hc
    exact hne (h2 hc)
  · intro h hEq
    rw [h1 h] at hEq
    simp at hEq

/-- Witness for C12: a configuration that sets neither `uuid` nor `hardware_address`. -/
theorem C12_validate_config_witness :
    OmniMachineDataSource.ValidateConfig
        { diags := [], data := { HardwareAddress := .null, UUID := .null,
                                 WaitForRegistration := .null, ID := .null } } =
      [] ++ [{ severity := Severity.error, summary := "Missing Attribute Configuration",
               detail := "hardware_address must be set if uuid is not.",
               path := some "hardware_address" }] :=
  (C12_validate_config (by decide)).1 ⟨by decide, by decide⟩

/-- C13: when `Read` of `omni_talosconfig`, started with an empty call log, made its client
call and that call returned the talosconfig `k` with a nil error, the call was for the
configured `cluster_name`, and the state written has `cluster_name` equal to the configured
value, `id` equal to `cluster_name` and `talosconfig` equal to `k`. -/
theorem C13_talosconfig_read_state {σ : Type} (R : Remote σ)
    (req : Got OmniTalosconfigDataSourceModel) (s : σ) (c k : String)
    (hcall : (OmniTalosconfigDataSource.Read R req (World.start s)).2.calls
      = [.GetTalosconfig c k none]) :
    c = req.data.ClusterName.ValueString ∧
    (OmniTalosconfigDataSource.Read R req (World.start s)).1.State =
      some { Talosconfig := .value k, ClusterName := req.data.ClusterName,
             ID := req.data.ClusterName } := by
  by_cases h1 : hasError req.diags = true
  · simp [OmniTalosconfigDataSource.Read, h1] at hcall
  · rcases hget : OmniClient.GetTalosconfig R req.data.ClusterName.ValueString (World.start s)
      with ⟨⟨k1, e1⟩, w1⟩
    have hl := GetTalosconfig_log R _ _ _ _ _ hget
    simp [OmniTalosconfigDataSource.Read, h1, hget, hl] at hcall ⊢
    exact ⟨hcall.1.symm, hcall.2.1⟩

/-- Witness for C13: the configuration of `TestAccOmniTalosconfigDataSource` on `demoRemote`. -/
theorem C13_talosconfig_read_state_witness :
    (OmniTalosconfigDataSource.Read demoRemote
        { diags := [], data := { Talosconfig := .null, ClusterName := .value "omni-cluster-1",
                                 ID := .null } } (World.start ())).1.State =
      some { Talosconfig := .value "talosconfig:omni-cluster-1",
             ClusterName := .value "omni-cluster-1", ID := .value "omni-cluster-1" } :=
  (C13_talosconfig_read_state demoRemote
    { diags := [], data := { Talosconfig := .null, ClusterName := .value "omni-cluster-1",
                             ID := .null } } () "omni-cluster-1" "talosconfig:omni-cluster-1"
    (by decide)).2

/-- C17: the provider registers exactly two resources and two data sources, and with the type
name `Metadata` reports ("omni") their type names are `omni_cluster`, `omni_kubeconfig` and
`omni_machine`, `omni_talosconfig`. -/
theorem C17_registered_type_names :
    OmniProvider.Resources.length = 2 ∧ OmniProvider.DataSources.length = 2 ∧
    ∀ version : String,
      (OmniProvider.Metadata version).1 = "omni" ∧
      OmniProvider.Resources.map (fun r => r (OmniProvider.Metadata version).1) =
        ["omni_cluster", "omni_kubeconfig"] ∧
      OmniProvider.DataSources.map (fun d => d (OmniProvider.Metadata version).1) =
        ["omni_machine", "omni_talosconfig"] := by
  refine ⟨rfl, rfl, fun version => ⟨rfl, ?_, ?_⟩⟩
  · simp [OmniProvider.Resources, OmniProvider.Metadata, OmniClusterResource.Metadata,
      OmniKubeconfigResource.Metadata]
  · simp [OmniProvider.DataSources, OmniProvider.Metadata, OmniMachineDataSource.Metadata,
      OmniTalosconfigDataSource.Metadata]

theorem isClusterChangingName_same_keyed (yaml : String → List DecodeStep) (t : String)
    (hk : keyedUpToCluster (yaml t) = true) :
    (isClusterChangingName yaml t t).1 = false := by
  cases hn : firstClusterName (yaml t) with
  | none =>
    obtain ⟨e, he⟩ :=
      (decodeUntilCluster_error_iff (yaml t) { Kind := "", Name := "" } (by decide)).mpr hn
    simp [isClusterChangingName, isClusterChangingNameDocs, he]
  | some n =>
    rw [isClusterChangingName, isClusterChangingNameDocs_keyed (yaml t) (yaml t) n n hk hk hn hn]
    simp

theorem update_no_rename_diagnostic {σ : Type} (L : Libs) (R : Remote σ)
    (req : UpdateRequest OmniClusterResourceModel) (w : World σ)
    (hcc : isClusterChangingName L.yaml req.Plan.data.Template.ValueString
      req.State.data.Template.ValueString ≠ (true, none))
    (d : Diagnostic) (hd : d ∈ (OmniClusterResource.Update L R req w).1.Diagnostics)
    (hsum : d.summary = "Changing Cluster Name is not possible") :
    d ∈ req.Plan.diags ++ req.State.diags := by
  unfold OmniClusterResource.Update at hd
  simp only at hd
  repeat' split at hd
  all_goals simp [addError] at hd
  all_goals first
    | contradiction
    | (rcases hd with hd | hd | hd <;> first
        | exact List.mem_append_left _ hd
        | exact List.mem_append_right _ hd
        | (subst hd; simp at hsum))
    | (rcases hd with hd | hd <;> first
        | exact List.mem_append_left _ hd
        | exact List.mem_append_right _ hd)
    | exact List.mem_append_left _ hd

/-- C18: for every template that is keyed up to its first Cluster document (as every stored
state is), `isClusterChangingName(t, t)` returns the result `false`, with or without an error;
so an `Update` whose planned template is the stored state template adds no
"Changing Cluster Name is not possible" diagnostic. -/
theorem C18_same_template_is_no_rename :
    (∀ (yaml : String → List DecodeStep) (t : String), keyedUpToCluster (yaml t) = true →
      (isClusterChangingName yaml t t).1 = false) ∧
    (∀ (σ : Type) (L : Libs) (R : Remote σ) (req : UpdateRequest OmniClusterResourceModel)
      (w : World σ),
      req.Plan.data.Template.ValueString = req.State.data.Template.ValueString →
      keyedUpToCluster (L.yaml req.State.data.Template.ValueString) = true →
      ∀ d ∈ (OmniClusterResource.Update L R req w).1.Diagnostics,
        d.summary = "Changing Cluster Name is not possible" →
        d ∈ req.Plan.diags ++ req.State.diags) := by
  refine ⟨isClusterChangingName_same_keyed, ?_⟩
  intro σ L R req w hsame hk d hd hsum
  refine update_no_rename_diagnostic L R req w ?_ d hd hsum
  intro hcc
  have h := isClusterChangingName_same_keyed L.yaml req.State.data.Template.ValueString hk
  rw [hsame] at hcc
  rw [hcc] at h
  exact Bool.noConfusion h

/-- Witness for C18: a stored template whose Cluster document comes second. -/
theorem C18_same_template_is_no_rename_witness :
    (isClusterChangingName sampleYaml "kind: ControlPlane\n---\nkind: Cluster\nname: a\n"
      "kind: ControlPlane\n---\nkind: Cluster\nname: a\n").1 = false :=
  C18_same_template_is_no_rename.1 sampleYaml
    "kind: ControlPlane\n---\nkind: Cluster\nname: a\n" (by decide)

/-- C19: `omni_machine` Read with `uuid = "u"` on a remote where machine `u` is registered
without network information: `FindMachineByUuid` returns that machine, whose `Network` is
nil, and `Read` panics on `Network.NetworkLinks[0]`. -/
theorem C19_read_by_uuid_panics_without_network :
    (bareMachine "u").Network = none ∧
    OmniMachineDataSource.Read (listRemote [bareMachine "u"]) 1
        { diags := [], data := machineConfigByUuid "u" } (World.start ()) =
      some (.panic,
            { remote := (),
              calls := [.GetMachines none, .FindMachineByUuid "u" (some (bareMachine "u"))] }) := by
  decide

theorem update_calls_after_name {σ : Type} (L : Libs) (R : Remote σ)
    (req : UpdateRequest OmniClusterResourceModel) (s : σ) (w1 w2 : World σ) (name : String)
    (hplan : hasError req.Plan.diags = false) (hstate : hasError req.State.diags = false)
    (hname : isClusterChangingName L.yaml req.Plan.data.Template.ValueString
      req.State.data.Template.ValueString = (false, none))
    (hsync : OmniClient.SyncCluster R req.Plan.data.Template.ValueString (World.start s)
      = (none, w1))
    (hget : OmniClient.GetClusterNameFromTemplate L req.Plan.data.Template.ValueString w1
      = ((name, none), w2)) :
    (req.Plan.data.ForceManifestUpdating.ValueBool = true →
      ∃ e rest, (OmniClusterResource.Update L R req (World.start s)).2.calls =
          [.SyncCluster req.Plan.data.Template.ValueString none,
           .GetClusterNameFromTemplate req.Plan.data.Template.ValueString name none,
           .SyncManifests name e] ++ rest ∧
        ∀ c ∈ rest, c.isSyncManifests = false) ∧
    (req.Plan.data.ForceManifestUpdating.ValueBool = false →
      ∃ rest, (OmniClusterResource.Update L R req (World.start s)).2.calls =
          [.SyncCluster req.Plan.data.Template.ValueString none,
           .GetClusterNameFromTemplate req.Plan.data.Template.ValueString name none] ++ rest ∧
        ∀ c ∈ rest, c.isSyncManifests = false) := by
  have h2 : hasError (req.Plan.diags ++ req.State.diags) = false := by
    rw [hasError_append, hplan, hstate]; rfl
  have l1 := SyncCluster_log R _ _ _ _ hsync
  have l2 := (GetClusterNameFromTemplate_log L _ _ _ _ _ hget).1
  simp only [World.start_calls, List.nil_append] at l1
  rw [l1] at l2
  constructor
  · intro hforce
    rcases hman : OmniClient.SyncManifests R name w2 with ⟨e, w3⟩
    have l3 := SyncManifests_log R _ _ _ _ hman
    rw [l2] at l3
    rcases htem : OmniClient.GetTemplateFromClusterName R name w3 with ⟨⟨t, e4⟩, w4⟩
    have l4 := GetTemplateFromClusterName_log R _ _ _ _ _ htem
    rw [l3] at l4
    cases e with
    | some err =>
      refine ⟨some err, [], ?_, by simp⟩
      simp [OmniClusterResource.Update, hplan, h2, hname, hsync, hget, hforce, hman, l3]
    | none =>
      cases e4 with
      | some err =>
        refine ⟨none, [.GetTemplateFromClusterName name t (some err)], ?_, by
          simp [Call.isSyncManifests]⟩
        simp [OmniClusterResource.Update, hplan, h2, hname, hsync, hget, hforce, hman, htem, l4]
      | none =>
        refine ⟨none, [.GetTemplateFromClusterName name t none], ?_, by
          simp [Call.isSyncManifests]⟩
        simp [OmniClusterResource.Update, hplan, h2, hname, hsync, hget, hforce, hman, htem, l4]
  · intro hforce
    rcases htem : OmniClient.GetTemplateFromClusterName R name w2 with ⟨⟨t, e4⟩, w4⟩
    have l4 := GetTemplateFromClusterName_log R _ _ _ _ _ htem
    rw [l2] at l4
    cases e4 with
    | some err =>
      refine ⟨[.GetTemplateFromClusterName name t (some err)], ?_, by
        simp [Call.isSyncManifests]⟩
      simp [OmniClusterResource.Update, hplan, h2, hname, hsync, hget, hforce, htem, l4]
    | none =>
      refine ⟨[.GetTemplateFromClusterName name t none], ?_, by
        simp [Call.isSyncManifests]⟩
      simp [OmniClusterResource.Update, hplan, h2, hname, hsync, hget, hforce, htem, l4]

/-- C14: in `Update` of `omni_cluster`, once the name check returned `(false, nil)`, `SyncCluster`
succeeded and `GetClusterNameFromTemplate` returned `name`: if `force_manifest_updating` is true,
the call log is `SyncCluster`, `GetClusterNameFromTemplate`, `SyncManifests name`, followed by
calls none of which is `SyncManifests`; if it is false or null, no logged call is
`SyncManifests`.  So `SyncManifests` is called if and only if the flag is true. -/
theorem C14_sync_manifests_iff_forced {σ : Type} (L : Libs) (R : Remote σ)
    (req : UpdateRequest OmniClusterResourceModel) (s : σ) (w1 w2 : World σ) (name : String)
    (hplan : hasError req.Plan.diags = false) (hstate : hasError req.State.diags = false)
    (hname : isClusterChangingName L.yaml req.Plan.data.Template.ValueString
      req.State.data.Template.ValueString = (false, none))
    (hsync : OmniClient.SyncCluster R req.Plan.data.Template.ValueString (World.start s)
      = (none, w1))
    (hget : OmniClient.GetClusterNameFromTemplate L req.Plan.data.Template.ValueString w1
      = ((name, none), w2)) :
    (req.Plan.data.ForceManifestUpdating.ValueBool = true →
      ∃ e rest, (OmniClusterResource.Update L R req (World.start s)).2.calls =
          [.SyncCluster req.Plan.data.Template.ValueString none,
           .GetClusterNameFromTemplate req.Plan.data.Template.ValueString name none,
           .SyncManifests name e] ++ rest ∧
        ∀ c ∈ rest, c.isSyncManifests = false) ∧
    (req.Plan.data.ForceManifestUpdating.ValueBool = false →
      ∀ c ∈ (OmniClusterResource.Update L R req (World.start s)).2.calls,
        c.isSyncManifests = false) ∧
    ((∃ c ∈ (OmniClusterResource.Update L R req (World.start s)).2.calls,
        c.isSyncManifests = true) ↔
      req.Plan.data.ForceManifestUpdating.ValueBool = true) := by
  obtain ⟨hyes, hno⟩ :=
    update_calls_after_name L R req s w1 w2 name hplan hstate hname hsync hget
  have hno1 : req.Plan.data.ForceManifestUpdating.ValueBool = false →
      ∀ c ∈ (OmniClusterResource.Update L R req (World.start s)).2.calls,
        c.isSyncManifests = false := by
    intro hf c hc
    obtain ⟨rest, hcalls, hrest⟩ := hno hf
    rw [hcalls] at hc
    simp at hc
    rcases hc with rfl | rfl | hc
    · rfl
    · rfl
    · exact hrest c hc
  refine ⟨hyes, hno1, ?_⟩
  constructor
  · rintro ⟨c, hc, hsm⟩
    by_contra hf
    have := hno1 (by simpa using hf) c hc
    rw [this] at hsm
    exact Bool.false_ne_true hsm
  · intro hf
    obtain ⟨e, rest, hcalls, -⟩ := hyes hf
    exact ⟨.SyncManifests name e, by simp [hcalls], rfl⟩

/-- Witness for C14: updating cluster `a` on `demoRemote` with `force_manifest_updating = true`. -/
theorem C14_sync_manifests_iff_forced_witness :
    ∃ e rest, (OmniClusterResource.Update demoLibs demoRemote
        { Plan := { diags := [],
                    data := { clusterPlan "a" with ForceManifestUpdating := .value true } },
          State := { diags := [], data := clusterState "a" } } (World.start ())).2.calls =
        [.SyncCluster "a" none, .GetClusterNameFromTemplate "a" "a" none,
         .SyncManifests "a" e] ++ rest ∧
      ∀ c ∈ rest, c.isSyncManifests = false :=
  (C14_sync_manifests_iff_forced demoLibs demoRemote
    { Plan := { diags := [],
                data := { clusterPlan "a" with ForceManifestUpdating := .value true } },
      State := { diags := [], data := clusterState "a" } } ()
    { remote := (), calls := [.SyncCluster "a" none] }
    { remote := (), calls := [.SyncCluster "a" none, .GetClusterNameFromTemplate "a" "a" none] }
    "a" (by decide) (by decide) (by decide) (by decide) (by decide)).1 (by decide)

theorem GetClusterMachines_labelled {σ : Type} (R : Remote σ) (name : String) (w w1 : World σ)
    (ms : List MachineStatus)
    (h : OmniClient.GetClusterMachines R name w = ((ms, none), w1)) :
    ∀ m ∈ ms, m.Labels.lookup "omni.sidero.dev/cluster" = some name := by
  unfold OmniClient.GetClusterMachines at h
  split at h
  · simp at h
  · simp at h
    obtain ⟨rfl, -⟩ := h
    intro m hm
    simpa using (List.mem_filter.mp hm).2

theorem GetClusterMachines_filter {σ : Type} (R : Remote σ) (name : String) (w w1 : World σ)
    (ms : List MachineStatus)
    (h : OmniClient.GetClusterMachines R name w = ((ms, none), w1)) :
    ∃ listed s1, R.listMachineStatus w.remote = (.ok listed, s1) ∧
      ms = listed.filter
        (fun r => decide (r.Labels.lookup "omni.sidero.dev/cluster" = some name)) := by
  unfold OmniClient.GetClusterMachines OmniClient.GetMachines at h
  rcases hl : R.listMachineStatus w.remote with ⟨res, s1⟩
  rw [hl] at h
  cases res with
  | err e => simp at h
  | ok listed =>
    simp at h
    exact ⟨listed, s1, rfl, h.1.symm⟩

/-- C15: in `Delete` of `omni_cluster`, `DeleteClusterMachines` is in the call log if and only
if `delete_machine_links` is true and `DeleteCluster` returned a nil error; when it is called,
the log is `GetClusterNameFromTemplate`, `GetMachines`, `GetClusterMachines name`,
`DeleteCluster`, `DeleteClusterMachines`, and its argument is the list `GetClusterMachines`
returned (fetched before `DeleteCluster`): exactly the machines of the remote listing that
carry the label `omni.sidero.dev/cluster = name`, in the listing's order. -/
theorem C15_delete_machine_links {σ : Type} (L : Libs) (R : Remote σ)
    (req : Got OmniClusterResourceModel) (s : σ) :
    ((∃ ms e, Call.DeleteClusterMachines ms e
          ∈ (OmniClusterResource.Delete L R req (World.start s)).2.calls) ↔
      (req.data.DeleteMachineLinks.ValueBool = true ∧
        Call.DeleteCluster req.data.ID.ValueString none
          ∈ (OmniClusterResource.Delete L R req (World.start s)).2.calls)) ∧
    (∀ ms e, Call.DeleteClusterMachines ms e
          ∈ (OmniClusterResource.Delete L R req (World.start s)).2.calls →
      ∃ name listed s1, (OmniClusterResource.Delete L R req (World.start s)).2.calls =
          [.GetClusterNameFromTemplate req.data.Template.ValueString name none,
           .GetMachines none, .GetClusterMachines name ms none,
           .DeleteCluster req.data.ID.ValueString none, .DeleteClusterMachines ms e] ∧
        R.listMachineStatus s = (.ok listed, s1) ∧
        ms = listed.filter
          (fun r => decide (r.Labels.lookup "omni.sidero.dev/cluster" = some name)) ∧
        ∀ m ∈ ms, m.Labels.lookup "omni.sidero.dev/cluster" = some name) := by
  unfold OmniClusterResource.Delete
  simp only
  split
  · simp
  · split
    · next err w1 h1 =>
      have l1 := (GetClusterNameFromTemplate_log L _ _ _ _ _ h1).1
      simp [l1]
    · next name w1 h1 =>
      have l1 := (GetClusterNameFromTemplate_log L _ _ _ _ _ h1).1
      have r1 := (GetClusterNameFromTemplate_log L _ _ _ _ _ h1).2
      split
      · next err w2 h2 =>
        have l2 := GetClusterMachines_log R _ _ _ _ _ h2
        simp [l2, l1]
      · next machinesToDelete w2 h2 =>
        have l2 := GetClusterMachines_log R _ _ _ _ _ h2
        have hlab := GetClusterMachines_labelled R _ _ _ _ h2
        obtain ⟨listed, s1, hlist, hfil⟩ := GetClusterMachines_filter R _ _ _ _ h2
        rw [r1, World.start_remote] at hlist
        split
        · next err w3 h3 =>
          have l3 := DeleteCluster_log R _ _ _ _ h3
          simp [l3, l2, l1]
        · next w3 h3 =>
          have l3 := DeleteCluster_log R _ _ _ _ h3
          split
          · next hflag =>
            split
            · next err w4 h4 =>
              have l4 := DeleteClusterMachines_log R _ _ _ _ h4
              simp only [l4, l3, l2, l1, hflag, World.start_calls, List.nil_append,
                List.append_assoc, List.cons_append, List.singleton_append]
              refine ⟨by simp, ?_⟩
              intro ms e hmem
              simp at hmem
              obtain ⟨rfl, rfl⟩ := hmem
              exact ⟨name, listed, s1, rfl, hlist, hfil, hlab⟩
            · next w4 h4 =>
              have l4 := DeleteClusterMachines_log R _ _ _ _ h4
              simp only [l4, l3, l2, l1, hflag, World.start_calls, List.nil_append,
                List.append_assoc, List.cons_append, List.singleton_append]
              refine ⟨by simp, ?_⟩
              intro ms e hmem
              simp at hmem
              obtain ⟨rfl, rfl⟩ := hmem
              exact ⟨name, listed, s1, rfl, hlist, hfil, hlab⟩
          · next hflag =>
            simp [l3, l2, l1, hflag]

/-- Witness for C15: deleting cluster `a` with `delete_machine_links = true` on a remote where
machine `m1` belongs to `a` and machine `m2` to another cluster. -/
theorem C15_delete_machine_links_witness :
    ∃ name listed s1, (OmniClusterResource.Delete demoLibs
        (listRemote [labelledMachine "m1" "a", labelledMachine "m2" "b"])
        { diags := [], data := clusterStateWithLinks "a" } (World.start ())).2.calls =
        [.GetClusterNameFromTemplate "a" name none, .GetMachines none,
         .GetClusterMachines name [labelledMachine "m1" "a"] none, .DeleteCluster "a" none,
         .DeleteClusterMachines [labelledMachine "m1" "a"] none] ∧
      (listRemote [labelledMachine "m1" "a", labelledMachine "m2" "b"]).listMachineStatus ()
        = (.ok listed, s1) ∧
      [labelledMachine "m1" "a"] = listed.filter
        (fun r => decide (r.Labels.lookup "omni.sidero.dev/cluster" = some name)) ∧
      ∀ m ∈ [labelledMachine "m1" "a"],
        m.Labels.lookup "omni.sidero.dev/cluster" = some name :=
  (C15_delete_machine_links demoLibs
    (listRemote [labelledMachine "m1" "a", labelledMachine "m2" "b"])
    { diags := [], data := clusterStateWithLinks "a" } ()).2
    [labelledMachine "m1" "a"] none (by decide)

section Poll

variable {σ : Type}

theorem pollState_succ_start (R : Remote σ) (name : String) (s : σ) (k : Nat) :
    pollState R name s (k + 1) = pollState R name (R.getClusterStatus name s).2 k := by
  induction k with
  | zero => rfl
  | succ n ih =>
    show (R.getClusterStatus name (pollState R name s (n + 1))).2 = _
    rw [ih]
    rfl

theorem pollResult_succ_start (R : Remote σ) (name : String) (s : σ) (k : Nat) :
    pollResult R name s (k + 1) = pollResult R name (R.getClusterStatus name s).2 k := by
  unfold pollResult
  rw [pollState_succ_start]

theorem waitForReady_returns (R : Remote σ) (name : String) (fuel : Nat) (s s1 : σ)
    (r : Option String) (h : waitForReady R name fuel s = some (r, s1)) :
    ∃ k, k < fuel ∧ (∀ j, j < k → pollResult R name s j = .ok false) ∧
      ((r = none ∧ pollResult R name s k = .ok true) ∨
       (∃ e, r = some e ∧ pollResult R name s k = .err e)) := by
  induction fuel generalizing s with
  | zero => simp [waitForReady] at h
  | succ n ih =>
    unfold waitForReady at h
    split at h
    · next e s2 hres =>
      simp at h
      refine ⟨0, Nat.succ_pos n, fun j hj => absurd hj (Nat.not_lt_zero j), Or.inr ⟨e, h.1.symm, ?_⟩⟩
      simp [pollResult, pollState, hres]
    · next ready s2 hres =>
      split at h
      · next hready =>
        simp at h
        refine ⟨0, Nat.succ_pos n, fun j hj => absurd hj (Nat.not_lt_zero j),
          Or.inl ⟨h.1.symm, ?_⟩⟩
        simp [pollResult, pollState, hres, hready]
      · next hready =>
        obtain ⟨k, hk, hbefore, hlast⟩ := ih s2 h
        have hs2 : (R.getClusterStatus name s).2 = s2 := by rw [hres]
        refine ⟨k + 1, Nat.succ_lt_succ hk, ?_, ?_⟩
        · intro j hj
          cases j with
          | zero => simp [pollResult, pollState, hres]; simpa using hready
          | succ i =>
            rw [pollResult_succ_start, hs2]
            exact hbefore i (Nat.lt_of_succ_lt_succ hj)
        · rw [pollResult_succ_start, hs2]
          exact hlast

theorem waitForReady_first_error (R : Remote σ) (name : String) (fuel : Nat) (s : σ) (k : Nat)
    (e : String) (hk : k < fuel) (hbefore : ∀ j, j < k → pollResult R name s j = .ok false)
    (hfail : pollResult R name s k = .err e) :
    waitForReady R name fuel s = some (some e, pollState R name s (k + 1)) := by
  induction fuel generalizing s k with
  | zero => exact absurd hk (Nat.not_lt_zero k)
  | succ n ih =>
    unfold waitForReady
    cases k with
    | zero =>
      have h0 : (R.getClusterStatus name s).1 = .err e := hfail
      rcases hres : R.getClusterStatus name s with ⟨res, s2⟩
      rw [hres] at h0
      simp at h0
      subst h0
      simp [pollState, hres]
    | succ i =>
      have h0 : (R.getClusterStatus name s).1 = .ok false := hbefore 0 (Nat.succ_pos i)
      rcases hres : R.getClusterStatus name s with ⟨res, s2⟩
      have hs2 : (R.getClusterStatus name s).2 = s2 := by rw [hres]
      rw [hres] at h0
      simp at h0
      subst h0
      simp only [Bool.false_eq_true, if_false]
      rw [pollState_succ_start, hs2]
      apply ih s2 i (Nat.lt_of_succ_lt_succ hk)
      · intro j hj
        have := hbefore (j + 1) (Nat.succ_lt_succ hj)
        rwa [pollResult_succ_start, hs2] at this
      · rwa [pollResult_succ_start, hs2] at hfail

theorem waitForReady_never (R : Remote σ) (name : String) (fuel : Nat) (s : σ)
    (hall : ∀ j, pollResult R name s j = .ok false) :
    waitForReady R name fuel s = none := by
  cases h : waitForReady R name fuel s with
  | none => rfl
  | some out =>
    obtain ⟨r, s1⟩ := out
    obtain ⟨k, -, -, hlast⟩ := waitForReady_returns R name fuel s s1 r h
    rw [hall k] at hlast
    simp at hlast

end Poll

/-- C16: `SyncClusterAndWaitForReady` returns nil only if the template sync succeeded, the
cluster name was obtained from the template, and the last poll (poll `k`, all earlier polls
having answered not ready) answered `Ready = true`; when the first poll that fails is within
the fuel, its error is returned; and when every poll answers `Ready = false` the call returns
for no amount of fuel. -/
theorem C16_sync_and_wait_for_ready {σ : Type} (L : Libs) (R : Remote σ) (fuel : Nat)
    (input : String) (w : World σ) :
    (∀ w1, OmniClient.SyncClusterAndWaitForReady L R fuel input w = some (none, w1) →
      ∃ s1 t name k, R.syncTemplate input w.remote = (none, s1) ∧
        L.templateLoad input = .ok t ∧ t.ClusterName = .ok name ∧ k < fuel ∧
        (∀ j, j < k → pollResult R name s1 j = .ok false) ∧
        pollResult R name s1 k = .ok true) ∧
    (∀ s1 t name k e, R.syncTemplate input w.remote = (none, s1) →
      L.templateLoad input = .ok t → t.ClusterName = .ok name → k < fuel →
      (∀ j, j < k → pollResult R name s1 j = .ok false) →
      pollResult R name s1 k = .err e →
      ∃ w1, OmniClient.SyncClusterAndWaitForReady L R fuel input w = some (some e, w1)) ∧
    (∀ s1 t name, R.syncTemplate input w.remote = (none, s1) →
      L.templateLoad input = .ok t → t.ClusterName = .ok name →
      (∀ j, pollResult R name s1 j = .ok false) →
      OmniClient.SyncClusterAndWaitForReady L R fuel input w = none) := by
  refine ⟨?_, ?_, ?_⟩
  · intro w1 h
    unfold OmniClient.SyncClusterAndWaitForReady at h
    split at h
    · simp at h
    · next s1 hsync =>
      split at h
      · simp at h
      · next t hload =>
        split at h
        · simp at h
        · next name hname =>
          split at h
          · simp at h
          · next r s2 hwait =>
            simp at h
            obtain ⟨rfl, -⟩ := h
            obtain ⟨k, hk, hbefore, hlast⟩ := waitForReady_returns R name fuel s1 s2 none hwait
            rcases hlast with ⟨-, hready⟩ | ⟨e, he, -⟩
            · exact ⟨s1, t, name, k, hsync, hload, hname, hk, hbefore, hready⟩
            · simp at he
  · intro s1 t name k e hsync hload hname hk hbefore hfail
    have hwait := waitForReady_first_error R name fuel s1 k e hk hbefore hfail
    simp [OmniClient.SyncClusterAndWaitForReady, hsync, hload, hname, hwait]
  · intro s1 t name hsync hload hname hall
    have hwait := waitForReady_never R name fuel s1 hall
    simp [OmniClient.SyncClusterAndWaitForReady, hsync, hload, hname, hwait]

/-- Witness for C16: on `neverReadyRemote` the call runs out of 5 units of fuel; on `demoRemote`
it returns nil after one poll. -/
theorem C16_sync_and_wait_for_ready_witness :
    OmniClient.SyncClusterAndWaitForReady demoLibs neverReadyRemote 5 "a" (World.start ()) = none ∧
    ∃ s1 t name k, demoRemote.syncTemplate "a" (World.start ()).remote = (none, s1) ∧
      demoLibs.templateLoad "a" = .ok t ∧ t.ClusterName = .ok name ∧ k < 1 ∧
      (∀ j, j < k → pollResult demoRemote name s1 j = .ok false) ∧
      pollResult demoRemote name s1 k = .ok true :=
  ⟨(C16_sync_and_wait_for_ready demoLibs neverReadyRemote 5 "a" (World.start ())).2.2
      () { ClusterName := .ok "a" } "a" rfl rfl rfl (fun _ => rfl),
   (C16_sync_and_wait_for_ready demoLibs demoRemote 1 "a" (World.start ())).1
      { remote := (), calls := [.SyncClusterAndWaitForReady "a" none] } (by decide)⟩

end Omni
